import Mathlib

/-!
Verification of the Lunar_X lander simulation core.

This file gives a shallow embedding of the repository's hard core — the
`Lander` physics / contact state machine of `src/apollo_X/entities/lander.py`
(the authoritative, sensor-equipped variant), the older divergent variant in
`src/entities/lander.py` where a claim compares the two, the terrain height
sensors (`SurfaceSensor`), and `compute_altitude` of `src/systems/physics.py` —
and proves or refutes the frozen specification claims about them.

Modelling conventions:
* Python floats are modelled as real numbers (`ℝ`) where the code uses
  transcendental functions (`sqrt`, `sin`, `cos`, `atan2`, degree/radian
  conversion, float `%`), and as rationals (`ℚ`, fully executable) for the
  purely arithmetic terrain interpolation sensors.
* pygame is an external collaborator: the pixel-mask overlap test, the rock
  mask test and sprite-rectangle geometry are inputs to the embedded
  functions (`contact : Option (ℤ × ℤ)`, `rockHit : Bool`, `rotBottom`),
  exactly as the spec describes them ("an external pixel-level overlap
  test").  Sprite dimensions are the `Params` record.
* Python `%` on floats with a positive modulus is `pymod`; `int(a // b)` for
  positive `b` is `⌊a / b⌋`; list indexing with a possibly negative index
  uses Python's wrap-around rule (`pyget`).
* Fallible operations (list indexing in the sensors) return `Option`;
  real-number division is total in Lean, so the one place the Python code can
  divide by zero (the pivot lever arm) is tracked by an explicit
  length (`leverR`) about which well-definedness is stated.
* Display-only rounding (`round(x, 2)` in crash telemetry) is omitted; the
  raw values are stored.
-/

namespace LunarX

/-! ## Configuration constants (src/apollo_X/config.py) -/

noncomputable section

def SCREEN_SIZE : ℝ := 1000
def PIXEL_SIZE : ℝ := 8
def FUEL_START : ℝ := 2000
def ROTATION_SPEED : ℝ := 90
def DRY_MASS : ℝ := 13000
def ISP : ℝ := 311
def G0_MOON : ℝ := 1.62
def MAX_THRUST : ℝ := 45000
def ANGULAR_INERTIA : ℝ := 2
def ROTATION_TORQUE : ℝ := 250
def LANDER_VX_ENTRY : ℝ := 10
def ENGINE_STARTUP_LIMIT : ℕ := 5
def LANDER_HEIGHT_M : ℝ := 7
def TIME_SCALE : ℝ := 1
def MAX_LANDING_ANGLE : ℝ := 20
def LAND_DAMAGE_SPEED : ℝ := 10
def MAX_OXYGEN : ℝ := 100
def MAX_BATTERY : ℝ := 100
def MAX_TEMPERATURE : ℝ := 120
def OXYGEN_DRAIN_RATE : ℝ := 1.5
def BATTERY_DRAIN_RATE : ℝ := 5
def APU_FUEL_RATE : ℝ := 2
def APU_RECHARGE_RATE : ℝ := 10

/-! ## Numeric helpers shared by the Python code -/

/-- Python float `a % b` (sign of the divisor): `a - b * ⌊a / b⌋`. -/
def pymod (a b : ℝ) : ℝ := a - b * ⌊a / b⌋

/-- Python `math.hypot a b = sqrt (a² + b²)`. -/
def hypot (a b : ℝ) : ℝ := Real.sqrt (a ^ 2 + b ^ 2)

/-- Python `math.radians`. -/
def radians (deg : ℝ) : ℝ := deg * Real.pi / 180

/-- Python `math.degrees`. -/
def degrees (rad : ℝ) : ℝ := rad * 180 / Real.pi

/-- Python `math.atan2 y x`: the argument of the complex number `x + y·i`,
in `(-π, π]`, with `atan2 0 0 = 0`. -/
def pyatan2 (y x : ℝ) : ℝ := Complex.arg ⟨x, y⟩

/-- `_angle_diff` (src/apollo_X/entities/lander.py line 7): minimal signed
difference in degrees between `target` and `source`, in `(−180, +180]`. -/
def angleDiff (target source : ℝ) : ℝ := pymod (target - source + 180) 360 - 180

/-- Python list indexing semantics for an integer index: a negative index
wraps once by the length (`l[-1]` is the last element); an index that is
still out of range raises in Python and is given the junk value `d` here
(no embedded claim evaluates such an access). -/
def pyget (l : List ℝ) (i : ℤ) (d : ℝ) : ℝ :=
  if i < 0 then l.getD (i + l.length).toNat d else l.getD i.toNat d

/-! ## Data model -/

/-- Discrete command states polled each tick (pygame key states). -/
structure Keys where
  up : Bool
  left : Bool
  right : Bool
  k1 : Bool
  k2 : Bool
  k3 : Bool
  deriving DecidableEq

def Keys.none' : Keys := ⟨false, false, false, false, false, false⟩

def Keys.upOnly : Keys := ⟨true, false, false, false, false, false⟩

/-- The transient `self.report` payload: a structured last-event record. -/
inductive Report where
  /-- `{"ENGINE FAILURE": kind}` -/
  | engineFailure (kind : String) : Report
  /-- `{"landing_speed": v}`, optionally annotated with `{"sample": tag}`. -/
  | landing (landing_speed : ℝ) (sample : Option String) : Report
  /-- `{"CAUSE:": cause, "impact_speed": v, "impact_angle": a}`
  (display rounding of the two numbers omitted). -/
  | crashReport (cause : String) (impact_speed impact_angle : ℝ) : Report

/-- Terrain provider: the ordered ground-height sample sequence `topo`
(screen y per `PIXEL_SIZE` step).  The pixel occupancy mask is external. -/
structure Terrain where
  topo : List ℝ

/-- Sprite geometry of the loaded lander image (an external asset):
`img.get_width()` and `img.get_height()` in pixels. -/
structure Params where
  imgW : ℝ
  imgH : ℝ

/-- `self.px_per_m = self.img.get_height() / Config.LANDER_HEIGHT_M`. -/
def pxPerM (P : Params) : ℝ := P.imgH / LANDER_HEIGHT_M

/-- The mutable `Lander` entity (src/apollo_X/entities/lander.py).
`gravity_center` and `contact_screen` hold the integer screen coordinates
recorded by `draw` / `collision_check`. -/
structure Lander where
  x : ℝ
  y : ℝ
  vx : ℝ
  vy : ℝ
  ax : ℝ
  ay : ℝ
  angle : ℝ
  angular_velocity : ℝ
  fuel : ℝ
  oxygen : ℝ
  battery : ℝ
  temperature : ℝ
  damage : ℝ
  gforce : ℝ
  apu_on : Bool
  engine_startup_count : ℕ
  engine_out : Bool
  engine_on : Bool
  throttle : ℝ
  crashed : Bool
  landed : Bool
  crash_anim : Bool
  crash_index : ℕ
  report : Option Report
  science : ℤ
  gravity_center : ℤ × ℤ
  contact_screen : Option (ℤ × ℤ)
  contact_slope : Option ℝ

/-- `self.mass` property: `Config.DRY_MASS + self.fuel`. -/
def Lander.mass (s : Lander) : ℝ := DRY_MASS + s.fuel

/-- The state produced by `reset()` (SCREEN_SIZE = 1000, so x = 500, y = 250;
`gravity_center = (int(x + w/2), int(y + h/2))` is supplied by the caller
since it depends on the sprite size). -/
def resetState (gc : ℤ × ℤ) : Lander :=
  { x := 500, y := 250, vx := LANDER_VX_ENTRY, vy := 0, ax := 0, ay := 0,
    angle := 0, angular_velocity := 0,
    fuel := FUEL_START, oxygen := MAX_OXYGEN, battery := MAX_BATTERY,
    temperature := 20, damage := 0, gforce := 0,
    apu_on := false, engine_startup_count := 0, engine_out := false,
    engine_on := false, throttle := 1,
    crashed := false, landed := false, crash_anim := false, crash_index := 0,
    report := none, science := 0,
    gravity_center := gc, contact_screen := none, contact_slope := none }

/-! ## compute_surface_slope (src/apollo_X/entities/lander.py lines 239-249) -/

/-- Slope (degrees) under the lander's centre: positive means the ground
rises to the left. -/
def computeSurfaceSlope (P : Params) (terrain : Terrain) (x : ℝ) : ℝ :=
  let centre : ℤ := ⌊(x + P.imgW / 2) / PIXEL_SIZE⌋
  let left_i : ℤ := max 0 (centre - 5)
  let right_i : ℤ := min ((terrain.topo.length : ℤ) - 1) (centre + 5)
  let y_left := pyget terrain.topo left_i 0
  let y_right := pyget terrain.topo right_i 0
  let dx := ((right_i - left_i : ℤ) : ℝ) * PIXEL_SIZE
  let dy := y_left - y_right
  degrees (pyatan2 dy dx)

/-! ## update_physics (src/apollo_X/entities/lander.py lines 251-410)

The method is embedded section by section, in source order: life-support and
APU drains, rotational dynamics, then the mutually exclusive flight /
contact-settlement regimes. -/

/-- Life-support & power section (lines 263-274): oxygen and battery drains,
APU activation hysteresis, APU fuel-for-battery recharge. -/
def lifeSupport (dt_sim : ℝ) (s : Lander) : Lander :=
  let oxygen := max (s.oxygen - OXYGEN_DRAIN_RATE * dt_sim) 0
  let battery := max (s.battery - BATTERY_DRAIN_RATE * dt_sim) 0
  let apu_on :=
    if battery ≤ 0 ∧ ¬s.apu_on then true
    else if 50 ≤ battery ∧ s.apu_on then false
    else s.apu_on
  if apu_on ∧ battery < MAX_BATTERY then
    { s with oxygen := oxygen, apu_on := apu_on,
             fuel := max (s.fuel - APU_FUEL_RATE * dt_sim) 0,
             battery := min (battery + APU_RECHARGE_RATE * dt_sim) MAX_BATTERY }
  else
    { s with oxygen := oxygen, battery := battery, apu_on := apu_on }

/-- Rotational dynamics section (lines 278-288): torque from the rotate
keys, gated on battery power and not being landed; the orientation is then
integrated and normalized modulo 360 unconditionally. -/
def rotationStep (keys : Keys) (dt_sim : ℝ) (s : Lander) : Lander :=
  let angular_velocity :=
    if 0 < s.battery ∧ ¬s.landed then
      let net_torque := (if keys.left then ROTATION_TORQUE else 0) +
                        (if keys.right then -ROTATION_TORQUE else 0)
      s.angular_velocity + net_torque / ANGULAR_INERTIA * dt_sim
    else s.angular_velocity
  { s with angular_velocity := angular_velocity,
           angle := pymod (s.angle + angular_velocity * dt_sim) 360 }

/-- Throttle selection overrides (lines 297-302). -/
def throttleSel (keys : Keys) (t : ℝ) : ℝ :=
  if keys.k1 then 1 else if keys.k2 then 0.5 else if keys.k3 then 0.33 else t

/-- Fuel consumed by one firing tick (lines 315-317):
`mflow * dt_sim * throttle` with `mflow = MAX_THRUST * throttle / (ISP * G0_MOON)`. -/
def fuelBurn (dt_sim thr : ℝ) : ℝ :=
  MAX_THRUST * thr / (ISP * G0_MOON) * dt_sim * thr

/-- Translational integration of the flight branch (lines 328-340),
including the temperature rise from g-forces. -/
def integrate (P : Params) (dt_sim ax ay : ℝ) (s : Lander) : Lander :=
  let vx := s.vx + ax * dt_sim
  let vy := s.vy + ay * dt_sim
  let gforce := hypot ax ay / 9.81
  { s with ax := ax, ay := ay, vx := vx, vy := vy, gforce := gforce,
           x := s.x + vx * dt_sim * pxPerM P,
           y := s.y + vy * dt_sim * pxPerM P,
           temperature := min (s.temperature + 0.01 * gforce * dt_sim) MAX_TEMPERATURE }

/-- Flight branch (lines 291-340): throttle selection, engine startup
bookkeeping with the permanent-failure limit, thrust and fuel burn, then
integration.  Note that on the attempt that reaches
`ENGINE_STARTUP_LIMIT` the code sets `engine_out` but still falls through
to the thrust / fuel-burn lines of the same tick. -/
def flightStep (P : Params) (keys : Keys) (dt_sim : ℝ) (s0 : Lander) : Lander :=
  let s := { s0 with throttle := throttleSel keys s0.throttle }
  if keys.up ∧ 0 < s.fuel ∧ ¬s.engine_out then
    let s :=
      if ¬s.engine_on ∧ ¬s.engine_out then
        let c := s.engine_startup_count + 1
        if ENGINE_STARTUP_LIMIT ≤ c then
          { s with engine_startup_count := c,
                   report := some (Report.engineFailure "START_UP"),
                   engine_out := true, engine_on := false }
        else
          { s with engine_startup_count := c, engine_on := true }
      else s
    let s := { s with fuel := max (s.fuel - fuelBurn dt_sim s.throttle) 0 }
    let thrust := MAX_THRUST * s.throttle
    let rad := radians s.angle
    integrate P dt_sim
      (0 + thrust / s.mass * (-Real.sin rad))
      (G0_MOON + thrust / s.mass * (-Real.cos rad)) s
  else if s.fuel ≤ 0 then
    integrate P dt_sim 0 G0_MOON { s with engine_out := true, engine_on := false }
  else
    integrate P dt_sim 0 G0_MOON { s with engine_on := false }

/-- Lever arm from the recorded gravity centre to the contact-point pivot,
in metres (lines 372-377).  Unreachable when no contact point is set (the
contact branch is only entered with one); `(0, 0)` then. -/
def leverArm (P : Params) (s : Lander) : ℝ × ℝ :=
  match s.contact_screen with
  | none => (0, 0)
  | some (px, py) =>
    (((s.gravity_center.1 : ℝ) - (px : ℝ)) / pxPerM P,
     ((s.gravity_center.2 : ℝ) - (py : ℝ)) / pxPerM P)

/-- Lever-arm length `R = math.hypot dx0 dy0` (line 381): the divisor of
the tangential-unit-vector divisions, which raise `ZeroDivisionError` in
Python when it is zero. -/
def leverR (P : Params) (s : Lander) : ℝ := hypot (leverArm P s).1 (leverArm P s).2

/-- Contact / settlement branch (lines 341-410): lift-off thrust from the
landed state, else pivot physics around the contact point, else the
settlement-completion snap. -/
def contactStep (P : Params) (keys : Keys) (dt_sim : ℝ) (terrain : Terrain)
    (s0 : Lander) : Lander :=
  let target_slope := computeSurfaceSlope P terrain s0.x
  let rotation_step := ROTATION_SPEED * dt_sim
  let angle_diff := angleDiff target_slope s0.angle
  let s := { s0 with angular_velocity := 0, engine_on := false, ax := 0, ay := 0 }
  if keys.up ∧ 0 < s.fuel ∧ ¬s.engine_out then
    let s := { s with engine_on := true, landed := false }
    let s := { s with fuel := max (s.fuel - fuelBurn dt_sim s.throttle) 0 }
    let thrust := MAX_THRUST * s.throttle
    let rad := radians s.angle
    let ax := 0 + thrust / s.mass * (-Real.sin rad)
    let ay := 0 + thrust / s.mass * (-Real.cos rad)
    let vx := s.vx + ax * dt_sim
    let vy := s.vy + -|ay * dt_sim|
    { s with ax := ax, ay := ay, vx := vx, vy := vy,
             gforce := hypot ax ay / 9.81,
             x := s.x + vx * dt_sim * pxPerM P,
             y := s.y + vy * dt_sim * pxPerM P }
  else if rotation_step ≤ |angle_diff| then
    let arm := leverArm P s
    let dx0 := arm.1
    let dy0 := arm.2
    let arm0 := pyatan2 dy0 dx0
    let R := hypot dx0 dy0
    let tx := -dy0 / R
    let ty := dx0 / R
    let tang_acc := G0_MOON * ty * 2
    let ax := tang_acc * tx
    let ay := tang_acc * ty
    let vx := s.vx + ax * dt_sim
    let vy := s.vy + ay * dt_sim
    let pxv := ((s.contact_screen.getD (0, 0)).1 : ℝ)
    let pyv := ((s.contact_screen.getD (0, 0)).2 : ℝ)
    let cg2x := (s.gravity_center.1 : ℝ) + vx * dt_sim * pxPerM P
    let cg2y := (s.gravity_center.2 : ℝ) + vy * dt_sim * pxPerM P
    let dx1 := (cg2x - pxv) / pxPerM P
    let dy1 := (cg2y - pyv) / pxPerM P
    let arm1 := pyatan2 dy1 dx1
    let delta_arm := pymod (degrees (arm1 - arm0) + 180) 360 - 180
    { s with ax := ax, ay := ay, vx := vx, vy := vy,
             x := s.x + vx * dt_sim * pxPerM P,
             y := s.y + vy * dt_sim * pxPerM P,
             angle := pymod (s.angle - delta_arm) 360 }
  else
    { s with ax := 0, ay := 0, vx := 0, vy := 0,
             angle := pymod target_slope 360, landed := true }

/-- `Lander.update_physics`: time scaling, crash early-return, life-support
and rotational sections, then the flight / contact regimes. -/
def updatePhysics (P : Params) (keys : Keys) (dt : ℝ) (terrain : Terrain)
    (s : Lander) : Lander :=
  let dt_sim := dt * TIME_SCALE
  if s.crashed then s
  else
    let s1 := rotationStep keys dt_sim (lifeSupport dt_sim s)
    if s1.contact_screen = none ∧ ¬s1.landed then flightStep P keys dt_sim s1
    else if s1.contact_screen ≠ none ∧ ¬s1.crashed then
      contactStep P keys dt_sim terrain s1
    else s1

/-! ## collision_check (src/apollo_X/entities/lander.py lines 518-587)

The pixel-perfect mask tests are external pygame collaborators: `rockHit`
stands for `detect_rock_collision` returning a rock, and `contact` for
`ship_mask.overlap(terrain_mask, ...)` converted to the on-screen contact
coordinates that the method records. -/

/-- `Lander._crash` (lines 642-653); crash-animation wall-clock timer
omitted, telemetry rounding omitted. -/
def crashState (reason : String) (s : Lander) : Lander :=
  { s with crashed := true, crash_anim := true, crash_index := 0,
           engine_on := false,
           report := some (Report.crashReport reason (hypot s.vx s.vy) s.angle) }

/-- `Lander.collision_check` of the authoritative apollo_X variant. -/
def collisionCheck (P : Params) (keys : Keys) (terrain : Terrain)
    (contact : Option (ℤ × ℤ)) (rockHit specialHit : Bool) (s : Lander) : Lander :=
  if rockHit then crashState "CRASHED INTO ROCKS" s
  else
    let abs_vy := |s.vy|
    let vel_abs := hypot s.vy s.vx
    let slope := computeSurfaceSlope P terrain s.x
    let s := { s with contact_slope := some slope }
    match contact with
    | none =>
      if s.contact_screen ≠ none ∧ keys.up then { s with contact_screen := none }
      else s
    | some c =>
      if s.contact_screen = none then
        let s := { s with contact_screen := some c }
        let angle_diff := angleDiff slope s.angle
        let vel_ratio := vel_abs / LAND_DAMAGE_SPEED
        let angle_ratio := |angle_diff| / MAX_LANDING_ANGLE
        if 0.25 < vel_ratio + angle_ratio then
          let s := { s with damage := min (s.damage + (vel_ratio + angle_ratio) * 100) 100 }
          if 100 ≤ s.damage ∧ 0.75 < vel_ratio + angle_ratio then
            crashState "STRUCTURAL DAMAGE" s
          else if 1.5 < vel_ratio + angle_ratio then
            crashState "HARD LANDING" s
          else s
        else
          let s := { s with report := some (Report.landing abs_vy none) }
          if specialHit then
            { s with science := s.science + 10,
                     report := some (Report.landing abs_vy (some "cool rock")) }
          else s
      else s

/-! ## The older divergent variant (src/entities/lander.py lines 255-327) -/

/-- `Lander._crash` of the older variant (lines 391-401): identical except
that it does not force `engine_on := false`. -/
def oldCrashState (reason : String) (s : Lander) : Lander :=
  { s with crashed := true, crash_anim := true, crash_index := 0,
           report := some (Report.crashReport reason (hypot s.vx s.vy) s.angle) }

/-- `Lander.collision_check` of the older variant: same first-contact
evaluation except `vel_abs` via `math.sqrt(vy**2 + vx**2)` and the
structural-damage comparison `damage >= 100 and ratio_sum < 1`. -/
def oldCollisionCheck (P : Params) (keys : Keys) (terrain : Terrain)
    (contact : Option (ℤ × ℤ)) (rockHit specialHit : Bool) (s : Lander) : Lander :=
  if rockHit then oldCrashState "CRASHED INTO ROCKS" s
  else
    let abs_vy := |s.vy|
    let vel_abs := Real.sqrt (s.vy ^ 2 + s.vx ^ 2)
    let slope := computeSurfaceSlope P terrain s.x
    let s := { s with contact_slope := some slope }
    match contact with
    | none =>
      if s.contact_screen ≠ none ∧ keys.up then { s with contact_screen := none }
      else s
    | some c =>
      if s.contact_screen = none then
        let s := { s with contact_screen := some c }
        let angle_diff := angleDiff slope s.angle
        let vel_ratio := vel_abs / LAND_DAMAGE_SPEED
        let angle_ratio := |angle_diff| / MAX_LANDING_ANGLE
        if 0.25 < vel_ratio + angle_ratio then
          let s := { s with damage := min (s.damage + (vel_ratio + angle_ratio) * 100) 100 }
          if 100 ≤ s.damage ∧ vel_ratio + angle_ratio < 1 then
            oldCrashState "STRUCTURAL DAMAGE" s
          else if 1.5 < vel_ratio + angle_ratio then
            oldCrashState "HARD LANDING" s
          else s
        else
          let s := { s with report := some (Report.landing abs_vy none) }
          if specialHit then
            { s with science := s.science + 10,
                     report := some (Report.landing abs_vy (some "cool rock")) }
          else s
      else s

/-! ## Tick sequences -/

/-- The external inputs of one simulated tick: polled keys, the frame time,
the terrain, and the pygame overlap-test results. -/
structure TickInput where
  keys : Keys
  dt : ℝ
  terrain : Terrain
  contact : Option (ℤ × ℤ)
  rockHit : Bool
  specialHit : Bool

/-- One tick of the simulation loop: `update_physics` then
`collision_check`, in the loop's order. -/
def tick (P : Params) (t : TickInput) (s : Lander) : Lander :=
  collisionCheck P t.keys t.terrain t.contact t.rockHit t.specialHit
    (updatePhysics P t.keys t.dt t.terrain s)

/-- A finite sequence of ticks. -/
def runTicks (P : Params) (ts : List TickInput) (s : Lander) : Lander :=
  ts.foldl (fun st t => tick P t st) s

/-- The resource ranges of a valid lander state (§3 invariants; the throttle
is a fraction of max thrust, hence nonnegative). -/
def Valid (s : Lander) : Prop :=
  0 ≤ s.oxygen ∧ s.oxygen ≤ MAX_OXYGEN ∧
  0 ≤ s.battery ∧ s.battery ≤ MAX_BATTERY ∧
  0 ≤ s.fuel ∧ s.fuel ≤ FUEL_START ∧
  0 ≤ s.damage ∧ s.damage ≤ 100 ∧
  0 ≤ s.throttle

/-- The crash cause recorded in the report, if the last event was a crash. -/
def crashCause (s : Lander) : Option String :=
  match s.report with
  | some (Report.crashReport cause _ _) => some cause
  | _ => none

end

/-! ## Terrain sensors (executable, over ℚ)

`SurfaceSensor` (src/apollo_X/entities/lander.py lines 12-55) and
`compute_altitude` (src/systems/physics.py lines 7-15) use only rational
arithmetic, `floor`/`ceil` and list indexing, so they are embedded over `ℚ`
and fully executable.  List indexing is modelled fallibly with `List.get?`:
a `none` result is Python's `IndexError`. -/

/-- `Config.PIXEL_SIZE` as a rational. -/
def PIXEL_SIZE_Q : ℚ := 8

/-- `Config.LANDER_HEIGHT_M` as a rational. -/
def LANDER_HEIGHT_Q : ℚ := 7

/-- `SurfaceSensor._terrain_height_at` (lines 18-36): interpolated terrain
surface y at world x, with the bracketing sample indices clamped to the
valid range. -/
def terrainHeightAt (topo : List ℚ) (x_world : ℚ) : Option ℚ :=
  let idx_float := x_world / PIXEL_SIZE_Q
  let left_i : ℤ := ⌊idx_float⌋
  let right_i : ℤ := ⌈idx_float⌉
  let max_i : ℤ := (topo.length : ℤ) - 1
  let left_c : ℤ := max 0 (min left_i max_i)
  let right_c : ℤ := max 0 (min right_i max_i)
  do
    let y_left ← topo.get? left_c.toNat
    let y_right ← topo.get? right_c.toNat
    if left_c = right_c then pure y_left
    else
      let t := idx_float - (left_c : ℚ)
      pure (y_left * (1 - t) + y_right * t)

/-- `Lander.base_coords` (lines 172-179): bottom-centre of the lander,
`(x + w/2, y + h - 29)`. -/
def baseCoords (x y imgW imgH : ℚ) : ℚ × ℚ := (x + imgW / 2, y + imgH - 29)

/-- `SurfaceSensor.altitude_at` (lines 38-55): altitude in metres from the
lander base to the terrain surface at `base_x + reading_offset` (defaulted
to `base_x` when the offset is `None`), paired with the reading
coordinates. -/
def altitudeAt (topo : List ℚ) (x y imgW imgH offset : ℚ)
    (reading_offset : Option ℚ) : Option (ℚ × (ℚ × ℚ)) :=
  let px_per_m := imgH / LANDER_HEIGHT_Q
  let base := baseCoords x y imgW imgH
  let roff := reading_offset.getD base.1
  do
    let surface_y ← terrainHeightAt topo (base.1 + roff)
    pure ((surface_y - base.2) / px_per_m, (base.1 - offset + roff, surface_y))

/-- `compute_altitude` (src/systems/physics.py): samples the terrain at the
lander-centre index when in range and otherwise returns `0.0`.  `rotBottom`
is `rot.get_rect(center=(lander.x, lander.y)).bottom`, external pygame
sprite geometry. -/
def computeAltitude (topo : List ℚ) (x imgW rotBottom px_per_m : ℚ) : ℚ :=
  let idx : ℤ := ⌊(x + imgW / 2) / PIXEL_SIZE_Q⌋
  if 0 ≤ idx ∧ idx < (topo.length : ℤ) then
    let ground_y := topo.getD idx.toNat 0
    (max 0 (ground_y - rotBottom)) / px_per_m
  else 0

/-- Modelled from the spec's words for the refutation of claim C8: an
altitude query that "clamps to the nearest valid sample rather than fail",
evaluating the in-range formula of `compute_altitude` at the nearest valid
sample index when the index is out of range. -/
def computeAltitudeSpec (topo : List ℚ) (x imgW rotBottom px_per_m : ℚ) : ℚ :=
  let idx : ℤ := ⌊(x + imgW / 2) / PIXEL_SIZE_Q⌋
  let clamped : ℤ := max 0 (min idx ((topo.length : ℤ) - 1))
  let ground_y := topo.getD clamped.toNat 0
  (max 0 (ground_y - rotBottom)) / px_per_m

/-! ## Basic lemmas about the numeric helpers -/

lemma pymod_eq_self {a b : ℝ} (h0 : 0 ≤ a) (h1 : a < b) : pymod a b = a := by
  have hb : 0 < b := lt_of_le_of_lt h0 h1
  have hf : ⌊a / b⌋ = 0 := by
    rw [Int.floor_eq_zero_iff]
    exact Set.mem_Ico.mpr ⟨div_nonneg h0 hb.le, (div_lt_one hb).mpr h1⟩
  unfold pymod
  rw [hf]
  simp

lemma pymod_nonneg (a : ℝ) {b : ℝ} (hb : 0 < b) : 0 ≤ pymod a b := by
  have h1 : ((⌊a / b⌋ : ℝ)) ≤ a / b := Int.floor_le _
  have h3 : b * (a / b) = a := by field_simp
  unfold pymod
  nlinarith

lemma pymod_lt (a : ℝ) {b : ℝ} (hb : 0 < b) : pymod a b < b := by
  have h1 : a / b < (⌊a / b⌋ : ℝ) + 1 := Int.lt_floor_add_one _
  have h3 : b * (a / b) = a := by field_simp
  unfold pymod
  nlinarith

lemma hypot_nonneg (a b : ℝ) : 0 ≤ hypot a b := Real.sqrt_nonneg _

lemma hypot_zero : hypot 0 0 = 0 := by
  unfold hypot
  norm_num

lemma hypot_pos_of_ne {a b : ℝ} (h : a ≠ 0 ∨ b ≠ 0) : 0 < hypot a b := by
  unfold hypot
  apply Real.sqrt_pos.mpr
  rcases h with h | h
  · positivity
  · positivity

/-- `atan2` of a nonnegative ordinate 0 over a positive abscissa is 0. -/
lemma pyatan2_zero_of_pos {x : ℝ} (hx : 0 ≤ x) : pyatan2 0 x = 0 := by
  unfold pyatan2
  have : (⟨x, 0⟩ : ℂ) = (x : ℂ) := rfl
  rw [this]
  exact Complex.arg_ofReal_of_nonneg hx

lemma angleDiff_self_zero : angleDiff 0 0 = 0 := by
  unfold angleDiff pymod
  norm_num [Int.floor_eq_iff]

/-! ## Field-preservation lemmas for the update sections -/

noncomputable section

@[simp] lemma lifeSupport_crashed (d : ℝ) (s : Lander) :
    (lifeSupport d s).crashed = s.crashed := by
  simp only [lifeSupport]; split_ifs <;> rfl

@[simp] lemma lifeSupport_landed (d : ℝ) (s : Lander) :
    (lifeSupport d s).landed = s.landed := by
  simp only [lifeSupport]; split_ifs <;> rfl

@[simp] lemma lifeSupport_contact_screen (d : ℝ) (s : Lander) :
    (lifeSupport d s).contact_screen = s.contact_screen := by
  simp only [lifeSupport]; split_ifs <;> rfl

@[simp] lemma lifeSupport_angle (d : ℝ) (s : Lander) :
    (lifeSupport d s).angle = s.angle := by
  simp only [lifeSupport]; split_ifs <;> rfl

@[simp] lemma lifeSupport_angular_velocity (d : ℝ) (s : Lander) :
    (lifeSupport d s).angular_velocity = s.angular_velocity := by
  simp only [lifeSupport]; split_ifs <;> rfl

@[simp] lemma lifeSupport_vx (d : ℝ) (s : Lander) :
    (lifeSupport d s).vx = s.vx := by
  simp only [lifeSupport]; split_ifs <;> rfl

@[simp] lemma lifeSupport_vy (d : ℝ) (s : Lander) :
    (lifeSupport d s).vy = s.vy := by
  simp only [lifeSupport]; split_ifs <;> rfl

@[simp] lemma lifeSupport_x (d : ℝ) (s : Lander) :
    (lifeSupport d s).x = s.x := by
  simp only [lifeSupport]; split_ifs <;> rfl

@[simp] lemma lifeSupport_y (d : ℝ) (s : Lander) :
    (lifeSupport d s).y = s.y := by
  simp only [lifeSupport]; split_ifs <;> rfl

@[simp] lemma lifeSupport_engine_out (d : ℝ) (s : Lander) :
    (lifeSupport d s).engine_out = s.engine_out := by
  simp only [lifeSupport]; split_ifs <;> rfl

@[simp] lemma lifeSupport_engine_on (d : ℝ) (s : Lander) :
    (lifeSupport d s).engine_on = s.engine_on := by
  simp only [lifeSupport]; split_ifs <;> rfl

@[simp] lemma lifeSupport_engine_startup_count (d : ℝ) (s : Lander) :
    (lifeSupport d s).engine_startup_count = s.engine_startup_count := by
  simp only [lifeSupport]; split_ifs <;> rfl

@[simp] lemma lifeSupport_throttle (d : ℝ) (s : Lander) :
    (lifeSupport d s).throttle = s.throttle := by
  simp only [lifeSupport]; split_ifs <;> rfl

@[simp] lemma lifeSupport_damage (d : ℝ) (s : Lander) :
    (lifeSupport d s).damage = s.damage := by
  simp only [lifeSupport]; split_ifs <;> rfl

@[simp] lemma lifeSupport_report (d : ℝ) (s : Lander) :
    (lifeSupport d s).report = s.report := by
  simp only [lifeSupport]; split_ifs <;> rfl

@[simp] lemma lifeSupport_science (d : ℝ) (s : Lander) :
    (lifeSupport d s).science = s.science := by
  simp only [lifeSupport]; split_ifs <;> rfl

@[simp] lemma lifeSupport_gravity_center (d : ℝ) (s : Lander) :
    (lifeSupport d s).gravity_center = s.gravity_center := by
  simp only [lifeSupport]; split_ifs <;> rfl

@[simp] lemma lifeSupport_contact_slope (d : ℝ) (s : Lander) :
    (lifeSupport d s).contact_slope = s.contact_slope := by
  simp only [lifeSupport]; split_ifs <;> rfl

@[simp] lemma rotationStep_crashed (k : Keys) (d : ℝ) (s : Lander) :
    (rotationStep k d s).crashed = s.crashed := rfl

@[simp] lemma rotationStep_landed (k : Keys) (d : ℝ) (s : Lander) :
    (rotationStep k d s).landed = s.landed := rfl

@[simp] lemma rotationStep_contact_screen (k : Keys) (d : ℝ) (s : Lander) :
    (rotationStep k d s).contact_screen = s.contact_screen := rfl

@[simp] lemma rotationStep_fuel (k : Keys) (d : ℝ) (s : Lander) :
    (rotationStep k d s).fuel = s.fuel := rfl

@[simp] lemma rotationStep_oxygen (k : Keys) (d : ℝ) (s : Lander) :
    (rotationStep k d s).oxygen = s.oxygen := rfl

@[simp] lemma rotationStep_battery (k : Keys) (d : ℝ) (s : Lander) :
    (rotationStep k d s).battery = s.battery := rfl

@[simp] lemma rotationStep_damage (k : Keys) (d : ℝ) (s : Lander) :
    (rotationStep k d s).damage = s.damage := rfl

@[simp] lemma rotationStep_throttle (k : Keys) (d : ℝ) (s : Lander) :
    (rotationStep k d s).throttle = s.throttle := rfl

@[simp] lemma rotationStep_engine_out (k : Keys) (d : ℝ) (s : Lander) :
    (rotationStep k d s).engine_out = s.engine_out := rfl

@[simp] lemma rotationStep_engine_on (k : Keys) (d : ℝ) (s : Lander) :
    (rotationStep k d s).engine_on = s.engine_on := rfl

@[simp] lemma rotationStep_engine_startup_count (k : Keys) (d : ℝ) (s : Lander) :
    (rotationStep k d s).engine_startup_count = s.engine_startup_count := rfl

@[simp] lemma rotationStep_report (k : Keys) (d : ℝ) (s : Lander) :
    (rotationStep k d s).report = s.report := rfl

@[simp] lemma rotationStep_science (k : Keys) (d : ℝ) (s : Lander) :
    (rotationStep k d s).science = s.science := rfl

@[simp] lemma rotationStep_gravity_center (k : Keys) (d : ℝ) (s : Lander) :
    (rotationStep k d s).gravity_center = s.gravity_center := rfl

@[simp] lemma rotationStep_vx (k : Keys) (d : ℝ) (s : Lander) :
    (rotationStep k d s).vx = s.vx := rfl

@[simp] lemma rotationStep_vy (k : Keys) (d : ℝ) (s : Lander) :
    (rotationStep k d s).vy = s.vy := rfl

@[simp] lemma rotationStep_x (k : Keys) (d : ℝ) (s : Lander) :
    (rotationStep k d s).x = s.x := rfl

@[simp] lemma rotationStep_y (k : Keys) (d : ℝ) (s : Lander) :
    (rotationStep k d s).y = s.y := rfl

@[simp] lemma rotationStep_contact_slope (k : Keys) (d : ℝ) (s : Lander) :
    (rotationStep k d s).contact_slope = s.contact_slope := rfl

@[simp] lemma rotationStep_angle (k : Keys) (d : ℝ) (s : Lander) :
    (rotationStep k d s).angle =
      pymod (s.angle + (rotationStep k d s).angular_velocity * d) 360 := rfl

@[simp] lemma integrate_angle (P : Params) (d a b : ℝ) (s : Lander) :
    (integrate P d a b s).angle = s.angle := rfl

@[simp] lemma integrate_fuel (P : Params) (d a b : ℝ) (s : Lander) :
    (integrate P d a b s).fuel = s.fuel := rfl

@[simp] lemma integrate_oxygen (P : Params) (d a b : ℝ) (s : Lander) :
    (integrate P d a b s).oxygen = s.oxygen := rfl

@[simp] lemma integrate_battery (P : Params) (d a b : ℝ) (s : Lander) :
    (integrate P d a b s).battery = s.battery := rfl

@[simp] lemma integrate_damage (P : Params) (d a b : ℝ) (s : Lander) :
    (integrate P d a b s).damage = s.damage := rfl

@[simp] lemma integrate_throttle (P : Params) (d a b : ℝ) (s : Lander) :
    (integrate P d a b s).throttle = s.throttle := rfl

@[simp] lemma integrate_crashed (P : Params) (d a b : ℝ) (s : Lander) :
    (integrate P d a b s).crashed = s.crashed := rfl

@[simp] lemma integrate_landed (P : Params) (d a b : ℝ) (s : Lander) :
    (integrate P d a b s).landed = s.landed := rfl

@[simp] lemma integrate_contact_screen (P : Params) (d a b : ℝ) (s : Lander) :
    (integrate P d a b s).contact_screen = s.contact_screen := rfl

@[simp] lemma integrate_engine_out (P : Params) (d a b : ℝ) (s : Lander) :
    (integrate P d a b s).engine_out = s.engine_out := rfl

@[simp] lemma integrate_engine_on (P : Params) (d a b : ℝ) (s : Lander) :
    (integrate P d a b s).engine_on = s.engine_on := rfl

@[simp] lemma integrate_engine_startup_count (P : Params) (d a b : ℝ) (s : Lander) :
    (integrate P d a b s).engine_startup_count = s.engine_startup_count := rfl

@[simp] lemma integrate_report (P : Params) (d a b : ℝ) (s : Lander) :
    (integrate P d a b s).report = s.report := rfl

@[simp] lemma integrate_science (P : Params) (d a b : ℝ) (s : Lander) :
    (integrate P d a b s).science = s.science := rfl

@[simp] lemma integrate_vy (P : Params) (d a b : ℝ) (s : Lander) :
    (integrate P d a b s).vy = s.vy + b * d := rfl

@[simp] lemma integrate_ay (P : Params) (d a b : ℝ) (s : Lander) :
    (integrate P d a b s).ay = b := rfl

@[simp] lemma flightStep_angle (P : Params) (k : Keys) (d : ℝ) (s : Lander) :
    (flightStep P k d s).angle = s.angle := by
  simp only [flightStep, integrate]; split_ifs <;> rfl

@[simp] lemma flightStep_contact_screen (P : Params) (k : Keys) (d : ℝ) (s : Lander) :
    (flightStep P k d s).contact_screen = s.contact_screen := by
  simp only [flightStep, integrate]; split_ifs <;> rfl

@[simp] lemma flightStep_crashed (P : Params) (k : Keys) (d : ℝ) (s : Lander) :
    (flightStep P k d s).crashed = s.crashed := by
  simp only [flightStep, integrate]; split_ifs <;> rfl

@[simp] lemma flightStep_landed (P : Params) (k : Keys) (d : ℝ) (s : Lander) :
    (flightStep P k d s).landed = s.landed := by
  simp only [flightStep, integrate]; split_ifs <;> rfl

@[simp] lemma flightStep_damage (P : Params) (k : Keys) (d : ℝ) (s : Lander) :
    (flightStep P k d s).damage = s.damage := by
  simp only [flightStep, integrate]; split_ifs <;> rfl

@[simp] lemma flightStep_oxygen (P : Params) (k : Keys) (d : ℝ) (s : Lander) :
    (flightStep P k d s).oxygen = s.oxygen := by
  simp only [flightStep, integrate]; split_ifs <;> rfl

@[simp] lemma flightStep_battery (P : Params) (k : Keys) (d : ℝ) (s : Lander) :
    (flightStep P k d s).battery = s.battery := by
  simp only [flightStep, integrate]; split_ifs <;> rfl

@[simp] lemma flightStep_science (P : Params) (k : Keys) (d : ℝ) (s : Lander) :
    (flightStep P k d s).science = s.science := by
  simp only [flightStep, integrate]; split_ifs <;> rfl

@[simp] lemma flightStep_gravity_center (P : Params) (k : Keys) (d : ℝ) (s : Lander) :
    (flightStep P k d s).gravity_center = s.gravity_center := by
  simp only [flightStep, integrate]; split_ifs <;> rfl

@[simp] lemma flightStep_contact_slope (P : Params) (k : Keys) (d : ℝ) (s : Lander) :
    (flightStep P k d s).contact_slope = s.contact_slope := by
  simp only [flightStep, integrate]; split_ifs <;> rfl

@[simp] lemma contactStep_contact_screen (P : Params) (k : Keys) (d : ℝ)
    (T : Terrain) (s : Lander) :
    (contactStep P k d T s).contact_screen = s.contact_screen := by
  simp only [contactStep]; split_ifs <;> rfl

@[simp] lemma contactStep_crashed (P : Params) (k : Keys) (d : ℝ)
    (T : Terrain) (s : Lander) :
    (contactStep P k d T s).crashed = s.crashed := by
  simp only [contactStep]; split_ifs <;> rfl

@[simp] lemma contactStep_damage (P : Params) (k : Keys) (d : ℝ)
    (T : Terrain) (s : Lander) :
    (contactStep P k d T s).damage = s.damage := by
  simp only [contactStep]; split_ifs <;> rfl

@[simp] lemma contactStep_oxygen (P : Params) (k : Keys) (d : ℝ)
    (T : Terrain) (s : Lander) :
    (contactStep P k d T s).oxygen = s.oxygen := by
  simp only [contactStep]; split_ifs <;> rfl

@[simp] lemma contactStep_battery (P : Params) (k : Keys) (d : ℝ)
    (T : Terrain) (s : Lander) :
    (contactStep P k d T s).battery = s.battery := by
  simp only [contactStep]; split_ifs <;> rfl

@[simp] lemma contactStep_science (P : Params) (k : Keys) (d : ℝ)
    (T : Terrain) (s : Lander) :
    (contactStep P k d T s).science = s.science := by
  simp only [contactStep]; split_ifs <;> rfl

@[simp] lemma contactStep_throttle (P : Params) (k : Keys) (d : ℝ)
    (T : Terrain) (s : Lander) :
    (contactStep P k d T s).throttle = s.throttle := by
  simp only [contactStep]; split_ifs <;> rfl

@[simp] lemma contactStep_engine_out (P : Params) (k : Keys) (d : ℝ)
    (T : Terrain) (s : Lander) :
    (contactStep P k d T s).engine_out = s.engine_out := by
  simp only [contactStep]; split_ifs <;> rfl

@[simp] lemma contactStep_engine_startup_count (P : Params) (k : Keys) (d : ℝ)
    (T : Terrain) (s : Lander) :
    (contactStep P k d T s).engine_startup_count = s.engine_startup_count := by
  simp only [contactStep]; split_ifs <;> rfl

@[simp] lemma contactStep_report (P : Params) (k : Keys) (d : ℝ)
    (T : Terrain) (s : Lander) :
    (contactStep P k d T s).report = s.report := by
  simp only [contactStep]; split_ifs <;> rfl

@[simp] lemma contactStep_gravity_center (P : Params) (k : Keys) (d : ℝ)
    (T : Terrain) (s : Lander) :
    (contactStep P k d T s).gravity_center = s.gravity_center := by
  simp only [contactStep]; split_ifs <;> rfl

@[simp] lemma contactStep_contact_slope (P : Params) (k : Keys) (d : ℝ)
    (T : Terrain) (s : Lander) :
    (contactStep P k d T s).contact_slope = s.contact_slope := by
  simp only [contactStep]; split_ifs <;> rfl

@[simp] lemma collisionCheck_oxygen (P : Params) (k : Keys) (T : Terrain)
    (c : Option (ℤ × ℤ)) (rh sh : Bool) (s : Lander) :
    (collisionCheck P k T c rh sh s).oxygen = s.oxygen := by
  cases c <;> simp only [collisionCheck, crashState] <;> split_ifs <;> rfl

@[simp] lemma collisionCheck_battery (P : Params) (k : Keys) (T : Terrain)
    (c : Option (ℤ × ℤ)) (rh sh : Bool) (s : Lander) :
    (collisionCheck P k T c rh sh s).battery = s.battery := by
  cases c <;> simp only [collisionCheck, crashState] <;> split_ifs <;> rfl

@[simp] lemma collisionCheck_fuel (P : Params) (k : Keys) (T : Terrain)
    (c : Option (ℤ × ℤ)) (rh sh : Bool) (s : Lander) :
    (collisionCheck P k T c rh sh s).fuel = s.fuel := by
  cases c <;> simp only [collisionCheck, crashState] <;> split_ifs <;> rfl

@[simp] lemma collisionCheck_throttle (P : Params) (k : Keys) (T : Terrain)
    (c : Option (ℤ × ℤ)) (rh sh : Bool) (s : Lander) :
    (collisionCheck P k T c rh sh s).throttle = s.throttle := by
  cases c <;> simp only [collisionCheck, crashState] <;> split_ifs <;> rfl

@[simp] lemma collisionCheck_landed (P : Params) (k : Keys) (T : Terrain)
    (c : Option (ℤ × ℤ)) (rh sh : Bool) (s : Lander) :
    (collisionCheck P k T c rh sh s).landed = s.landed := by
  cases c <;> simp only [collisionCheck, crashState] <;> split_ifs <;> rfl

@[simp] lemma collisionCheck_vy (P : Params) (k : Keys) (T : Terrain)
    (c : Option (ℤ × ℤ)) (rh sh : Bool) (s : Lander) :
    (collisionCheck P k T c rh sh s).vy = s.vy := by
  cases c <;> simp only [collisionCheck, crashState] <;> split_ifs <;> rfl

@[simp] lemma collisionCheck_angle (P : Params) (k : Keys) (T : Terrain)
    (c : Option (ℤ × ℤ)) (rh sh : Bool) (s : Lander) :
    (collisionCheck P k T c rh sh s).angle = s.angle := by
  cases c <;> simp only [collisionCheck, crashState] <;> split_ifs <;> rfl

@[simp] lemma collisionCheck_engine_out (P : Params) (k : Keys) (T : Terrain)
    (c : Option (ℤ × ℤ)) (rh sh : Bool) (s : Lander) :
    (collisionCheck P k T c rh sh s).engine_out = s.engine_out := by
  cases c <;> simp only [collisionCheck, crashState] <;> split_ifs <;> rfl

@[simp] lemma collisionCheck_engine_startup_count (P : Params) (k : Keys) (T : Terrain)
    (c : Option (ℤ × ℤ)) (rh sh : Bool) (s : Lander) :
    (collisionCheck P k T c rh sh s).engine_startup_count = s.engine_startup_count := by
  cases c <;> simp only [collisionCheck, crashState] <;> split_ifs <;> rfl

@[simp] lemma updatePhysics_contact_screen (P : Params) (k : Keys) (dt : ℝ)
    (T : Terrain) (s : Lander) :
    (updatePhysics P k dt T s).contact_screen = s.contact_screen := by
  simp only [updatePhysics]; split_ifs <;> simp

@[simp] lemma updatePhysics_crashed (P : Params) (k : Keys) (dt : ℝ)
    (T : Terrain) (s : Lander) :
    (updatePhysics P k dt T s).crashed = s.crashed := by
  simp only [updatePhysics]; split_ifs <;> simp

@[simp] lemma updatePhysics_damage (P : Params) (k : Keys) (dt : ℝ)
    (T : Terrain) (s : Lander) :
    (updatePhysics P k dt T s).damage = s.damage := by
  simp only [updatePhysics]; split_ifs <;> simp

/-- When the craft is flying (no contact point, not landed, not crashed),
`update_physics` is the life-support, rotation and flight sections in
sequence. -/
lemma updatePhysics_eq_flight {P : Params} {keys : Keys} {dt : ℝ} {T : Terrain}
    {s : Lander} (hc : s.crashed = false) (hcs : s.contact_screen = none)
    (hl : s.landed = false) :
    updatePhysics P keys dt T s =
      flightStep P keys (dt * TIME_SCALE)
        (rotationStep keys (dt * TIME_SCALE) (lifeSupport (dt * TIME_SCALE) s)) := by
  simp only [updatePhysics]
  rw [if_neg (by simp [hc]), if_pos (by simp [hcs, hl])]

/-- When a contact point is recorded (and the craft has not crashed),
`update_physics` is the life-support, rotation and contact-settlement
sections in sequence. -/
lemma updatePhysics_eq_contact {P : Params} {keys : Keys} {dt : ℝ} {T : Terrain}
    {s : Lander} {c : ℤ × ℤ} (hc : s.crashed = false)
    (hcs : s.contact_screen = some c) :
    updatePhysics P keys dt T s =
      contactStep P keys (dt * TIME_SCALE) T
        (rotationStep keys (dt * TIME_SCALE) (lifeSupport (dt * TIME_SCALE) s)) := by
  simp only [updatePhysics]
  rw [if_neg (by simp [hc]), if_neg (by simp [hcs]), if_pos (by simp [hcs, hc])]

/-! ## Preservation of the valid resource ranges (claim C9 support) -/

lemma throttleSel_nonneg (k : Keys) {t : ℝ} (ht : 0 ≤ t) : 0 ≤ throttleSel k t := by
  unfold throttleSel
  split_ifs <;> first | exact ht | norm_num

lemma fuelBurn_nonneg {d t : ℝ} (hd : 0 ≤ d) (ht : 0 ≤ t) : 0 ≤ fuelBurn d t := by
  have h1 : 0 ≤ MAX_THRUST * t := mul_nonneg (by norm_num [MAX_THRUST]) ht
  have h2 : 0 ≤ MAX_THRUST * t / (ISP * G0_MOON) :=
    div_nonneg h1 (by norm_num [ISP, G0_MOON])
  exact mul_nonneg (mul_nonneg h2 hd) ht

lemma lifeSupport_valid {d : ℝ} (hd : 0 ≤ d) {s : Lander} (h : Valid s) :
    Valid (lifeSupport d s) := by
  obtain ⟨h1, h2, h3, h4, h5, h6, h7, h8, h9⟩ := h
  have hod : (0:ℝ) ≤ OXYGEN_DRAIN_RATE * d := mul_nonneg (by norm_num [OXYGEN_DRAIN_RATE]) hd
  have hbd : (0:ℝ) ≤ BATTERY_DRAIN_RATE * d := mul_nonneg (by norm_num [BATTERY_DRAIN_RATE]) hd
  have hfd : (0:ℝ) ≤ APU_FUEL_RATE * d := mul_nonneg (by norm_num [APU_FUEL_RATE]) hd
  have hrd : (0:ℝ) ≤ APU_RECHARGE_RATE * d := mul_nonneg (by norm_num [APU_RECHARGE_RATE]) hd
  simp only [lifeSupport]
  split_ifs
  all_goals
    first
      | exact ⟨le_max_right _ _, max_le (by linarith) (by norm_num [MAX_OXYGEN]),
          le_min (add_nonneg (le_max_right _ _) hrd) (by norm_num [MAX_BATTERY]),
          min_le_right _ _,
          le_max_right _ _, max_le (by linarith) (by norm_num [FUEL_START]),
          h7, h8, h9⟩
      | exact ⟨le_max_right _ _, max_le (by linarith) (by norm_num [MAX_OXYGEN]),
          le_max_right _ _, max_le (by linarith) (by norm_num [MAX_BATTERY]),
          h5, h6, h7, h8, h9⟩

lemma rotationStep_valid (k : Keys) (d : ℝ) {s : Lander} (h : Valid s) :
    Valid (rotationStep k d s) := h

lemma flightStep_valid (P : Params) (k : Keys) {d : ℝ} {s : Lander}
    (hd : 0 ≤ d) (h : Valid s) : Valid (flightStep P k d s) := by
  obtain ⟨h1, h2, h3, h4, h5, h6, h7, h8, h9⟩ := h
  have hts : 0 ≤ throttleSel k s.throttle := throttleSel_nonneg k h9
  have hfb : 0 ≤ fuelBurn d (throttleSel k s.throttle) := fuelBurn_nonneg hd hts
  simp only [flightStep, integrate]
  split_ifs
  all_goals
    first
      | exact ⟨h1, h2, h3, h4, le_max_right _ _,
          max_le ((sub_le_self _ hfb).trans h6) (by norm_num [FUEL_START]), h7, h8, hts⟩
      | exact ⟨h1, h2, h3, h4, h5, h6, h7, h8, hts⟩

lemma contactStep_valid (P : Params) (k : Keys) (T : Terrain) {d : ℝ} {s : Lander}
    (hd : 0 ≤ d) (h : Valid s) : Valid (contactStep P k d T s) := by
  obtain ⟨h1, h2, h3, h4, h5, h6, h7, h8, h9⟩ := h
  have hfb : 0 ≤ fuelBurn d s.throttle := fuelBurn_nonneg hd h9
  simp only [contactStep]
  split_ifs
  · exact ⟨h1, h2, h3, h4, le_max_right _ _,
      max_le ((sub_le_self _ hfb).trans h6) (by norm_num [FUEL_START]), h7, h8, h9⟩
  · exact ⟨h1, h2, h3, h4, h5, h6, h7, h8, h9⟩
  · exact ⟨h1, h2, h3, h4, h5, h6, h7, h8, h9⟩

lemma updatePhysics_valid (P : Params) (k : Keys) (T : Terrain) {dt : ℝ}
    {s : Lander} (hdt : 0 ≤ dt) (h : Valid s) : Valid (updatePhysics P k dt T s) := by
  have hd : 0 ≤ dt * TIME_SCALE := by
    unfold TIME_SCALE; linarith
  simp only [updatePhysics]
  split_ifs
  · exact h
  · exact flightStep_valid _ _ hd (rotationStep_valid _ _ (lifeSupport_valid hd h))
  · exact contactStep_valid _ _ _ hd (rotationStep_valid _ _ (lifeSupport_valid hd h))
  · exact rotationStep_valid _ _ (lifeSupport_valid hd h)

/-- The first-contact combined risk score is nonnegative. -/
lemma ratioSum_nonneg (s : Lander) (slope : ℝ) :
    0 ≤ hypot s.vy s.vx / LAND_DAMAGE_SPEED + |angleDiff slope s.angle| / MAX_LANDING_ANGLE := by
  have hv : 0 ≤ hypot s.vy s.vx / LAND_DAMAGE_SPEED :=
    div_nonneg (hypot_nonneg _ _) (by norm_num [LAND_DAMAGE_SPEED])
  have ha : 0 ≤ |angleDiff slope s.angle| / MAX_LANDING_ANGLE :=
    div_nonneg (abs_nonneg _) (by norm_num [MAX_LANDING_ANGLE])
  linarith

lemma collisionCheck_valid (P : Params) (k : Keys) (T : Terrain)
    (c : Option (ℤ × ℤ)) (rh sh : Bool) {s : Lander} (h : Valid s) :
    Valid (collisionCheck P k T c rh sh s) := by
  obtain ⟨h1, h2, h3, h4, h5, h6, h7, h8, h9⟩ := h
  have hr := ratioSum_nonneg s (computeSurfaceSlope P T s.x)
  cases c <;> simp only [collisionCheck, crashState] <;> split_ifs
  all_goals
    first
      | exact ⟨h1, h2, h3, h4, h5, h6, h7, h8, h9⟩
      | exact ⟨h1, h2, h3, h4, h5, h6,
          le_min (by nlinarith) (by norm_num), min_le_right _ _, h9⟩

lemma collisionCheck_damage_le (P : Params) (k : Keys) (T : Terrain)
    (c : Option (ℤ × ℤ)) (rh sh : Bool) {s : Lander}
    (h100 : s.damage ≤ 100) :
    s.damage ≤ (collisionCheck P k T c rh sh s).damage := by
  have hr := ratioSum_nonneg s (computeSurfaceSlope P T s.x)
  cases c <;> simp only [collisionCheck, crashState] <;> split_ifs
  all_goals first | exact le_rfl | exact le_min (by nlinarith) h100

/-! ## Angle normalization (claim C10 support) -/

lemma rotationStep_angle_bounds (k : Keys) (d : ℝ) (s : Lander) :
    0 ≤ (rotationStep k d s).angle ∧ (rotationStep k d s).angle < 360 :=
  ⟨pymod_nonneg _ (by norm_num), pymod_lt _ (by norm_num)⟩

lemma contactStep_angle_bounds (P : Params) (k : Keys) (d : ℝ) (T : Terrain)
    {s : Lander} (h : 0 ≤ s.angle ∧ s.angle < 360) :
    0 ≤ (contactStep P k d T s).angle ∧ (contactStep P k d T s).angle < 360 := by
  simp only [contactStep]
  split_ifs
  · exact h
  · exact ⟨pymod_nonneg _ (by norm_num), pymod_lt _ (by norm_num)⟩
  · exact ⟨pymod_nonneg _ (by norm_num), pymod_lt _ (by norm_num)⟩

lemma tick_valid (P : Params) (t : TickInput) {s : Lander}
    (hdt : 0 ≤ t.dt) (h : Valid s) :
    Valid (tick P t s) ∧ s.damage ≤ (tick P t s).damage := by
  have hu := updatePhysics_valid P t.keys t.terrain hdt h
  refine ⟨collisionCheck_valid _ _ _ _ _ _ hu, ?_⟩
  have hd : (updatePhysics P t.keys t.dt t.terrain s).damage = s.damage :=
    updatePhysics_damage _ _ _ _ _
  unfold tick
  rw [← hd]
  exact collisionCheck_damage_le _ _ _ _ _ _ (hd ▸ hu.2.2.2.2.2.2.2.1)

/-! ## The first-contact risk score -/

/-- `vel_ratio + angle_ratio` as computed by `collision_check` at first
contact: `|velocity| / LAND_DAMAGE_SPEED + |angle_diff| / MAX_LANDING_ANGLE`. -/
def ratioSum (P : Params) (terrain : Terrain) (s : Lander) : ℝ :=
  hypot s.vy s.vx / LAND_DAMAGE_SPEED +
    |angleDiff (computeSurfaceSlope P terrain s.x) s.angle| / MAX_LANDING_ANGLE

lemma ratioSum_nn (P : Params) (terrain : Terrain) (s : Lander) :
    0 ≤ ratioSum P terrain s :=
  ratioSum_nonneg s _

@[simp] lemma crashState_crashed (r : String) (s : Lander) :
    (crashState r s).crashed = true := rfl

@[simp] lemma crashState_damage (r : String) (s : Lander) :
    (crashState r s).damage = s.damage := rfl

@[simp] lemma crashState_contact_screen (r : String) (s : Lander) :
    (crashState r s).contact_screen = s.contact_screen := rfl

@[simp] lemma crashState_landed (r : String) (s : Lander) :
    (crashState r s).landed = s.landed := rfl

@[simp] lemma crashCause_crashState (r : String) (s : Lander) :
    crashCause (crashState r s) = some r := rfl

/-! ## Concrete sample data for witnesses and counterexamples -/

/-- A 64×64 lander sprite (so `px_per_m = 64 / 7`). -/
def P0 : Params := ⟨64, 64⟩

/-- A flat terrain strip: eleven samples all at screen height 300. -/
def flat11 : Terrain :=
  ⟨[300, 300, 300, 300, 300, 300, 300, 300, 300, 300, 300]⟩

/-- The freshly reset lander (gravity centre at the sprite centre). -/
def s0 : Lander := resetState (532, 282)

/-! ## Claim theorems -/

/-- C10: after every tick of `update_physics` that gets past the crash
early-return — whichever of the flight, lift-off, pivot-settle or
settlement-snap branches executes — the orientation angle lies in
`[0, 360)`, for arbitrary angular velocity, target slope and `dt`. -/
theorem C10_angle_normalization (P : Params) (keys : Keys) (dt : ℝ)
    (terrain : Terrain) (s : Lander) (h : s.crashed = false) :
    0 ≤ (updatePhysics P keys dt terrain s).angle ∧
      (updatePhysics P keys dt terrain s).angle < 360 := by
  simp only [updatePhysics]
  rw [if_neg (by simp [h])]
  split_ifs
  · rw [flightStep_angle]
    exact rotationStep_angle_bounds _ _ _
  · exact contactStep_angle_bounds _ _ _ _ (rotationStep_angle_bounds _ _ _)
  · exact rotationStep_angle_bounds _ _ _

/-- Witness for C10 at a concrete non-crashed state. -/
theorem C10_angle_normalization_witness :
    0 ≤ (updatePhysics P0 Keys.none' 1 flat11 s0).angle ∧
      (updatePhysics P0 Keys.none' 1 flat11 s0).angle < 360 :=
  C10_angle_normalization P0 Keys.none' 1 flat11 s0 rfl

/-- Any finite tick sequence with nonnegative frame times preserves the
valid resource ranges and never decreases damage. -/
lemma runTicks_valid (P : Params) :
    ∀ (ts : List TickInput) (s : Lander), Valid s → (∀ t ∈ ts, 0 ≤ t.dt) →
      Valid (runTicks P ts s) ∧ s.damage ≤ (runTicks P ts s).damage
  | [], _, hv, _ => ⟨hv, le_rfl⟩
  | t :: ts, s, hv, hdt => by
    have h1 := tick_valid P t (hdt t (List.mem_cons_self _ _)) hv
    have h2 := runTicks_valid P ts (tick P t s)
      h1.1 (fun u hu => hdt u (List.mem_cons_of_mem _ hu))
    have hr : runTicks P (t :: ts) s = runTicks P ts (tick P t s) := rfl
    rw [hr]
    exact ⟨h2.1, le_trans h1.2 h2.2⟩

/-- C9: for every `dt ≥ 0` and every finite sequence of ticks
(`update_physics` followed by `collision_check`) from any valid state,
oxygen stays in `[0, MAX_OXYGEN]`, battery in `[0, MAX_BATTERY]`, fuel in
`[0, FUEL_START]`, damage in `[0, 100]`, and damage never decreases. -/
theorem C9_resource_clamping (P : Params) (ts : List TickInput) (s : Lander)
    (hv : Valid s) (hdt : ∀ t ∈ ts, 0 ≤ t.dt) :
    (0 ≤ (runTicks P ts s).oxygen ∧ (runTicks P ts s).oxygen ≤ MAX_OXYGEN) ∧
    (0 ≤ (runTicks P ts s).battery ∧ (runTicks P ts s).battery ≤ MAX_BATTERY) ∧
    (0 ≤ (runTicks P ts s).fuel ∧ (runTicks P ts s).fuel ≤ FUEL_START) ∧
    (0 ≤ (runTicks P ts s).damage ∧ (runTicks P ts s).damage ≤ 100) ∧
    s.damage ≤ (runTicks P ts s).damage := by
  obtain ⟨h, hm⟩ := runTicks_valid P ts s hv hdt
  obtain ⟨a1, a2, a3, a4, a5, a6, a7, a8, -⟩ := h
  exact ⟨⟨a1, a2⟩, ⟨a3, a4⟩, ⟨a5, a6⟩, ⟨a7, a8⟩, hm⟩

/-- Witness for C9: one concrete coasting tick from the reset state. -/
theorem C9_resource_clamping_witness :
    (0 ≤ (runTicks P0 [⟨Keys.none', 1, flat11, none, false, false⟩] s0).oxygen ∧
      (runTicks P0 [⟨Keys.none', 1, flat11, none, false, false⟩] s0).oxygen ≤ MAX_OXYGEN) ∧
    (0 ≤ (runTicks P0 [⟨Keys.none', 1, flat11, none, false, false⟩] s0).battery ∧
      (runTicks P0 [⟨Keys.none', 1, flat11, none, false, false⟩] s0).battery ≤ MAX_BATTERY) ∧
    (0 ≤ (runTicks P0 [⟨Keys.none', 1, flat11, none, false, false⟩] s0).fuel ∧
      (runTicks P0 [⟨Keys.none', 1, flat11, none, false, false⟩] s0).fuel ≤ FUEL_START) ∧
    (0 ≤ (runTicks P0 [⟨Keys.none', 1, flat11, none, false, false⟩] s0).damage ∧
      (runTicks P0 [⟨Keys.none', 1, flat11, none, false, false⟩] s0).damage ≤ 100) ∧
    s0.damage ≤ (runTicks P0 [⟨Keys.none', 1, flat11, none, false, false⟩] s0).damage :=
  C9_resource_clamping P0 [⟨Keys.none', 1, flat11, none, false, false⟩] s0
    (by
      refine ⟨?_, ?_, ?_, ?_, ?_, ?_, ?_, ?_, ?_⟩ <;>
        norm_num [s0, resetState, MAX_OXYGEN, MAX_BATTERY, FUEL_START])
    (by
      intro t ht
      rw [List.mem_singleton] at ht
      subst ht
      norm_num)

/-- Case-by-case evaluation of `collision_check` on a first detected
terrain overlap, shared by the claims about the contact classification. -/
lemma firstContact_eval (P : Params) (keys : Keys)
    (terrain : Terrain) (c : ℤ × ℤ) (specialHit : Bool) (s s' : Lander)
    (hc : s.crashed = false) (hcs : s.contact_screen = none)
    (hs' : s' = collisionCheck P keys terrain (some c) false specialHit s)
    (r : ℝ) (hr : r = ratioSum P terrain s) :
    (0.25 < r →
      s'.damage = min (s.damage + r * 100) 100 ∧
      ((s'.crashed = true ∧ crashCause s' = some "STRUCTURAL DAMAGE") ↔
        (100 ≤ min (s.damage + r * 100) 100 ∧ 0.75 < r)) ∧
      ((s'.crashed = true ∧ crashCause s' = some "HARD LANDING") ↔
        (¬(100 ≤ min (s.damage + r * 100) 100 ∧ 0.75 < r) ∧ 1.5 < r)) ∧
      s'.contact_screen = some c ∧
      (s'.crashed = false → s'.report = s.report ∧ s'.landed = s.landed)) ∧
    (r ≤ 0.25 →
      s'.crashed = false ∧ s'.damage = s.damage ∧ s'.contact_screen = some c ∧
      s'.report = some (Report.landing |s.vy|
        (cond specialHit (some "cool rock") none)) ∧
      s'.science = s.science + (cond specialHit 10 0)) := by
  subst hs' hr
  simp only [collisionCheck]
  rw [if_neg (by simp)]
  rw [if_pos hcs]
  simp only [ratioSum]
  split_ifs with h1 h2 h3 h4
  · -- structural damage crash
    refine ⟨fun _ => ⟨rfl, ?_, ?_, rfl, ?_⟩, fun hle => absurd h1 (not_lt.mpr hle)⟩
    · exact iff_of_true (by simp) h2
    · exact iff_of_false (by simp) (fun h => h.1 h2)
    · intro hfalse
      simp at hfalse
  · -- hard landing crash
    refine ⟨fun _ => ⟨rfl, ?_, ?_, rfl, ?_⟩, fun hle => absurd h1 (not_lt.mpr hle)⟩
    · exact iff_of_false (by simp) h2
    · exact iff_of_true (by simp) ⟨h2, h3⟩
    · intro hfalse
      simp at hfalse
  · -- damaging contact, provisionally rejected: no crash this tick
    refine ⟨fun _ => ⟨rfl, ?_, ?_, rfl, fun _ => ⟨rfl, rfl⟩⟩,
      fun hle => absurd h1 (not_lt.mpr hle)⟩
    · exact iff_of_false (by simp [hc]) (fun h => h2 h)
    · exact iff_of_false (by simp [hc]) (fun h => h3 h.2)
  · -- soft landing, special rock sampled
    refine ⟨fun hgt => absurd hgt h1, fun _ => ?_⟩
    exact ⟨hc, rfl, rfl, by simp [h4], by simp [h4]⟩
  · -- soft landing, no special rock
    have h4f : specialHit = false := by simpa using h4
    refine ⟨fun hgt => absurd hgt h1, fun _ => ?_⟩
    exact ⟨hc, rfl, rfl, by simp [h4f], by simp [h4f]⟩

/-- C1: on the first detected terrain overlap (no contact point previously
recorded, craft not crashed, no rock hit), `collision_check` classifies the
contact by `r = |velocity| / LAND_DAMAGE_SPEED + |angle_diff| / MAX_LANDING_ANGLE`:
if `r > 0.25` the damage becomes `min (damage + r·100) 100`, the craft
crashes with cause "STRUCTURAL DAMAGE" iff the damage reached 100 and
`r > 0.75`, else crashes with cause "HARD LANDING" iff `r > 1.5`, and
otherwise no landing is recorded (report and landed unchanged, contact
point stays set); if `r ≤ 0.25` a landing report with `landing_speed = |vy|`
is recorded, and a special-rock touch adds the fixed science increment and
annotates the report. -/
theorem C1_first_contact_classification (P : Params) (keys : Keys)
    (terrain : Terrain) (c : ℤ × ℤ) (specialHit : Bool) (s s' : Lander)
    (hc : s.crashed = false) (hcs : s.contact_screen = none)
    (hs' : s' = collisionCheck P keys terrain (some c) false specialHit s)
    (r : ℝ) (hr : r = ratioSum P terrain s) :
    (0.25 < r →
      s'.damage = min (s.damage + r * 100) 100 ∧
      ((s'.crashed = true ∧ crashCause s' = some "STRUCTURAL DAMAGE") ↔
        (100 ≤ min (s.damage + r * 100) 100 ∧ 0.75 < r)) ∧
      ((s'.crashed = true ∧ crashCause s' = some "HARD LANDING") ↔
        (¬(100 ≤ min (s.damage + r * 100) 100 ∧ 0.75 < r) ∧ 1.5 < r)) ∧
      s'.contact_screen = some c ∧
      (s'.crashed = false → s'.report = s.report ∧ s'.landed = s.landed)) ∧
    (r ≤ 0.25 →
      s'.crashed = false ∧ s'.damage = s.damage ∧ s'.contact_screen = some c ∧
      s'.report = some (Report.landing |s.vy|
        (cond specialHit (some "cool rock") none)) ∧
      s'.science = s.science + (cond specialHit 10 0)) :=
  firstContact_eval P keys terrain c specialHit s s' hc hcs hs' r hr

/-! ## The hard-landing scenario state (claims C2 and C6) -/

/-- The C2 scenario: the soft-landing setup (slope 0°, orientation 0°, zero
horizontal velocity, no prior damage) but descending at 12 m/s, positioned
so that the slope window sits inside the flat terrain strip. -/
def sC2 : Lander := { s0 with x := 10, vx := 0, vy := 12 }

lemma slope_flat11_x10 : computeSurfaceSlope P0 flat11 10 = 0 := by
  have hfl : ⌊((10 : ℝ) + P0.imgW / 2) / PIXEL_SIZE⌋ = 5 := by
    norm_num [P0, PIXEL_SIZE, Int.floor_eq_iff]
  simp only [computeSurfaceSlope, hfl]
  have h1 : pyget flat11.topo (max 0 (5 - 5)) 0 = 300 := rfl
  have h2 : pyget flat11.topo (min ((flat11.topo.length : ℤ) - 1) (5 + 5)) 0 = 300 := rfl
  rw [h1, h2, sub_self]
  have h3 : ((min ((flat11.topo.length : ℤ) - 1) (5 + 5) - max 0 (5 - 5) : ℤ) : ℝ) = 10 := by
    norm_num [flat11]
  rw [h3, pyatan2_zero_of_pos (by norm_num [PIXEL_SIZE])]
  simp [degrees]

lemma hypot_12_0 : hypot 12 0 = 12 := by
  unfold hypot
  rw [show ((12 : ℝ) ^ 2 + 0 ^ 2) = 12 ^ 2 by norm_num]
  exact Real.sqrt_sq (by norm_num)

lemma ratioSum_sC2 : ratioSum P0 flat11 sC2 = 1.2 := by
  unfold ratioSum
  rw [show sC2.vy = (12 : ℝ) from rfl, show sC2.vx = (0 : ℝ) from rfl,
    show sC2.x = (10 : ℝ) from rfl, show sC2.angle = (0 : ℝ) from rfl,
    slope_flat11_x10, angleDiff_self_zero, hypot_12_0]
  norm_num [LAND_DAMAGE_SPEED, MAX_LANDING_ANGLE]

/-- Witness for C1 at a concrete first-contact state (the reset state with
a recorded overlap). -/
theorem C1_first_contact_classification_witness :
    (0.25 < ratioSum P0 flat11 s0 →
      (collisionCheck P0 Keys.none' flat11 (some (500, 300)) false false s0).damage
          = min (s0.damage + ratioSum P0 flat11 s0 * 100) 100 ∧
      (((collisionCheck P0 Keys.none' flat11 (some (500, 300)) false false s0).crashed = true ∧
        crashCause (collisionCheck P0 Keys.none' flat11 (some (500, 300)) false false s0)
          = some "STRUCTURAL DAMAGE") ↔
        (100 ≤ min (s0.damage + ratioSum P0 flat11 s0 * 100) 100 ∧
          0.75 < ratioSum P0 flat11 s0)) ∧
      (((collisionCheck P0 Keys.none' flat11 (some (500, 300)) false false s0).crashed = true ∧
        crashCause (collisionCheck P0 Keys.none' flat11 (some (500, 300)) false false s0)
          = some "HARD LANDING") ↔
        (¬(100 ≤ min (s0.damage + ratioSum P0 flat11 s0 * 100) 100 ∧
            0.75 < ratioSum P0 flat11 s0) ∧ 1.5 < ratioSum P0 flat11 s0)) ∧
      (collisionCheck P0 Keys.none' flat11 (some (500, 300)) false false s0).contact_screen
          = some (500, 300) ∧
      ((collisionCheck P0 Keys.none' flat11 (some (500, 300)) false false s0).crashed = false →
        (collisionCheck P0 Keys.none' flat11 (some (500, 300)) false false s0).report
            = s0.report ∧
        (collisionCheck P0 Keys.none' flat11 (some (500, 300)) false false s0).landed
            = s0.landed)) ∧
    (ratioSum P0 flat11 s0 ≤ 0.25 →
      (collisionCheck P0 Keys.none' flat11 (some (500, 300)) false false s0).crashed = false ∧
      (collisionCheck P0 Keys.none' flat11 (some (500, 300)) false false s0).damage
          = s0.damage ∧
      (collisionCheck P0 Keys.none' flat11 (some (500, 300)) false false s0).contact_screen
          = some (500, 300) ∧
      (collisionCheck P0 Keys.none' flat11 (some (500, 300)) false false s0).report
          = some (Report.landing |s0.vy| (cond false (some "cool rock") none)) ∧
      (collisionCheck P0 Keys.none' flat11 (some (500, 300)) false false s0).science
          = s0.science + (cond false 10 0)) :=
  C1_first_contact_classification P0 Keys.none' flat11 (500, 300) false s0 _
    rfl rfl rfl (ratioSum P0 flat11 s0) rfl

/-- C2 counterexample: at the hard-landing scenario state (slope 0°,
orientation 0°, zero horizontal velocity, descending at 12 m/s,
`LAND_DAMAGE_SPEED = 10`) the ratio sum is 1.2, which does NOT exceed 1.5,
and the recorded crash cause is not "HARD LANDING". -/
theorem C2_hard_landing_counterexample :
    ¬(1.5 < ratioSum P0 flat11 sC2) ∧
    crashCause (collisionCheck P0 Keys.none' flat11 (some (500, 300)) false false sC2)
      ≠ some "HARD LANDING" := by
  have H := firstContact_eval P0 Keys.none' flat11 (500, 300) false sC2 _ rfl rfl rfl
    (ratioSum P0 flat11 sC2) rfl
  have hr := ratioSum_sC2
  obtain ⟨hd, hiff1, hiff2, -, -⟩ := H.1 (by rw [hr]; norm_num)
  have hrhs : 100 ≤ min (sC2.damage + ratioSum P0 flat11 sC2 * 100) 100 ∧
      0.75 < ratioSum P0 flat11 sC2 := by
    rw [hr, show sC2.damage = (0 : ℝ) from rfl]
    norm_num [min_def]
  have hcause := (hiff1.mpr hrhs).2
  refine ⟨by rw [hr]; norm_num, ?_⟩
  rw [hcause]
  simp

/-- C2 amended: same setup but the actual outcome — the first contact
yields `velocity_ratio = 1.2` and `ratio_sum = 1.2` (above 0.75, not above
1.5), the cumulative damage saturates at 100, and the resulting state is
CRASHED with cause "STRUCTURAL DAMAGE". -/
theorem C2_hard_landing_amended :
    hypot sC2.vy sC2.vx / LAND_DAMAGE_SPEED = 1.2 ∧
    ratioSum P0 flat11 sC2 = 1.2 ∧
    (collisionCheck P0 Keys.none' flat11 (some (500, 300)) false false sC2).crashed = true ∧
    crashCause (collisionCheck P0 Keys.none' flat11 (some (500, 300)) false false sC2)
      = some "STRUCTURAL DAMAGE" ∧
    (collisionCheck P0 Keys.none' flat11 (some (500, 300)) false false sC2).damage = 100 := by
  have H := firstContact_eval P0 Keys.none' flat11 (500, 300) false sC2 _ rfl rfl rfl
    (ratioSum P0 flat11 sC2) rfl
  have hr := ratioSum_sC2
  obtain ⟨hd, hiff1, -, -, -⟩ := H.1 (by rw [hr]; norm_num)
  have hrhs : 100 ≤ min (sC2.damage + ratioSum P0 flat11 sC2 * 100) 100 ∧
      0.75 < ratioSum P0 flat11 sC2 := by
    rw [hr, show sC2.damage = (0 : ℝ) from rfl]
    norm_num [min_def]
  refine ⟨?_, hr, (hiff1.mpr hrhs).1, (hiff1.mpr hrhs).2, ?_⟩
  · rw [show sC2.vy = (12 : ℝ) from rfl, show sC2.vx = (0 : ℝ) from rfl, hypot_12_0]
    norm_num [LAND_DAMAGE_SPEED]
  · rw [hd, hr, show sC2.damage = (0 : ℝ) from rfl]
    norm_num [min_def]

/-- The older variant's first-contact evaluation does not crash on the C2
scenario state: its structural comparison `ratio_sum < 1` fails at 1.2, as
does the hard threshold `ratio_sum > 1.5`. -/
lemma oldCollisionCheck_sC2_crashed :
    (oldCollisionCheck P0 Keys.none' flat11 (some (500, 300)) false false sC2).crashed
      = false := by
  have hsq : Real.sqrt (sC2.vy ^ 2 + sC2.vx ^ 2) = 12 := by
    rw [show sC2.vy = (12 : ℝ) from rfl, show sC2.vx = (0 : ℝ) from rfl,
      show ((12 : ℝ) ^ 2 + 0 ^ 2) = 12 ^ 2 by norm_num]
    exact Real.sqrt_sq (by norm_num)
  have hC : Real.sqrt (sC2.vy ^ 2 + sC2.vx ^ 2) / LAND_DAMAGE_SPEED +
      |angleDiff (computeSurfaceSlope P0 flat11 sC2.x) sC2.angle| / MAX_LANDING_ANGLE
        = 1.2 := by
    rw [hsq, show sC2.x = (10 : ℝ) from rfl, show sC2.angle = (0 : ℝ) from rfl,
      slope_flat11_x10, angleDiff_self_zero]
    norm_num [LAND_DAMAGE_SPEED, MAX_LANDING_ANGLE]
  simp only [oldCollisionCheck]
  rw [if_neg (by simp), if_pos (show sC2.contact_screen = none from rfl)]
  rw [hC]
  rw [if_pos (by norm_num : (0.25 : ℝ) < 1.2)]
  rw [if_neg (by norm_num :
    ¬(100 ≤ min (sC2.damage + 1.2 * 100) 100 ∧ (1.2 : ℝ) < 1))]
  rw [if_neg (by norm_num : ¬(1.5 : ℝ) < 1.2)]
  rfl

/-- C6: the two divergent first-contact damage evaluations are
behaviourally different at the same first-contact state: the newer
(apollo_X) variant crashes with "STRUCTURAL DAMAGE" while the older
variant records no crash on that tick. -/
theorem C6_divergent_variants :
    (collisionCheck P0 Keys.none' flat11 (some (500, 300)) false false sC2).crashed = true ∧
    crashCause (collisionCheck P0 Keys.none' flat11 (some (500, 300)) false false sC2)
      = some "STRUCTURAL DAMAGE" ∧
    (oldCollisionCheck P0 Keys.none' flat11 (some (500, 300)) false false sC2).crashed
      = false := by
  have H := firstContact_eval P0 Keys.none' flat11 (500, 300) false sC2 _ rfl rfl rfl
    (ratioSum P0 flat11 sC2) rfl
  have hr := ratioSum_sC2
  obtain ⟨-, hiff1, -, -, -⟩ := H.1 (by rw [hr]; norm_num)
  have hrhs : 100 ≤ min (sC2.damage + ratioSum P0 flat11 sC2 * 100) 100 ∧
      0.75 < ratioSum P0 flat11 sC2 := by
    rw [hr, show sC2.damage = (0 : ℝ) from rfl]
    norm_num [min_def]
  exact ⟨(hiff1.mpr hrhs).1, (hiff1.mpr hrhs).2, oldCollisionCheck_sC2_crashed⟩

/-! ## Engine startup failure (claim C3) -/

lemma flightStep_engine_out_mono (P : Params) (k : Keys) (d : ℝ) {s : Lander}
    (h : s.engine_out = true) : (flightStep P k d s).engine_out = true := by
  simp only [flightStep, integrate]
  split_ifs with h1 h2 h3 <;> first | rfl | exact h

lemma updatePhysics_engine_out_mono (P : Params) (k : Keys) (dt : ℝ) (T : Terrain)
    {s : Lander} (h : s.engine_out = true) :
    (updatePhysics P k dt T s).engine_out = true := by
  simp only [updatePhysics]
  split_ifs
  · exact h
  · exact flightStep_engine_out_mono _ _ _ (by simp [h])
  · rw [contactStep_engine_out]
    simp [h]
  · simp [h]

/-- Evaluation of the engine-startup bookkeeping of a thrusting flight
tick, shared by the claims about the startup limit. -/
lemma engineStartup_eval (P : Params) (keys : Keys) (dt : ℝ) (terrain : Terrain)
    (s s1 : Lander) (hc : s.crashed = false) (hcs : s.contact_screen = none)
    (hl : s.landed = false) (hup : keys.up = true) (hout : s.engine_out = false)
    (hon : s.engine_on = false)
    (hs1 : s1 = rotationStep keys (dt * TIME_SCALE) (lifeSupport (dt * TIME_SCALE) s))
    (hfuel : 0 < s1.fuel) :
    (updatePhysics P keys dt terrain s).engine_startup_count
        = s.engine_startup_count + 1 ∧
    (ENGINE_STARTUP_LIMIT ≤ s.engine_startup_count + 1 →
      (updatePhysics P keys dt terrain s).engine_out = true ∧
      (updatePhysics P keys dt terrain s).engine_on = false ∧
      (updatePhysics P keys dt terrain s).report
          = some (Report.engineFailure "START_UP") ∧
      (updatePhysics P keys dt terrain s).fuel
          = max (s1.fuel - fuelBurn (dt * TIME_SCALE) (throttleSel keys s1.throttle)) 0) ∧
    (s.engine_startup_count + 1 < ENGINE_STARTUP_LIMIT →
      (updatePhysics P keys dt terrain s).engine_out = false ∧
      (updatePhysics P keys dt terrain s).engine_on = true ∧
      (updatePhysics P keys dt terrain s).fuel
          = max (s1.fuel - fuelBurn (dt * TIME_SCALE) (throttleSel keys s1.throttle)) 0) ∧
    (∀ (keys2 : Keys) (dt2 : ℝ) (terrain2 : Terrain) (s2 : Lander),
      s2.engine_out = true → (updatePhysics P keys2 dt2 terrain2 s2).engine_out = true) ∧
    (∀ (keys2 : Keys) (terrain2 : Terrain) (c : Option (ℤ × ℤ)) (rh sh : Bool)
        (s2 : Lander), s2.engine_out = true →
      (collisionCheck P keys2 terrain2 c rh sh s2).engine_out = true) := by
  subst hs1
  rw [updatePhysics_eq_flight hc hcs hl]
  set t := rotationStep keys (dt * TIME_SCALE) (lifeSupport (dt * TIME_SCALE) s) with ht
  have hton : t.engine_on = false := by rw [ht]; simp [hon]
  have htout : t.engine_out = false := by rw [ht]; simp [hout]
  have htc : t.engine_startup_count = s.engine_startup_count := by rw [ht]; simp
  simp only [flightStep]
  rw [if_pos (And.intro hup (And.intro hfuel (by simp [htout])))]
  rw [if_pos (And.intro (by simp [hton]) (by simp [htout]))]
  split_ifs with hlim
  · have hlim' : ENGINE_STARTUP_LIMIT ≤ s.engine_startup_count + 1 := by
      simpa [htc] using hlim
    refine ⟨by simp [htc], fun _ => ⟨rfl, rfl, rfl, rfl⟩,
      fun hlt => absurd hlim' (by omega), ?_, ?_⟩
    · exact fun keys2 dt2 T2 s2 h => updatePhysics_engine_out_mono P keys2 dt2 T2 h
    · intro keys2 T2 c rh sh s2 h
      rw [collisionCheck_engine_out]
      exact h
  · have hlim' : ¬ENGINE_STARTUP_LIMIT ≤ s.engine_startup_count + 1 := by
      simpa [htc] using hlim
    refine ⟨by simp [htc], fun hge => absurd hge hlim',
      fun _ => ⟨by simp [htout], rfl, rfl⟩, ?_, ?_⟩
    · exact fun keys2 dt2 T2 s2 h => updatePhysics_engine_out_mono P keys2 dt2 T2 h
    · intro keys2 T2 c rh sh s2 h
      rw [collisionCheck_engine_out]
      exact h

/-- C3 amended: each flight tick with the thrust command active, fuel
available, engine not failed and engine currently off increments the
startup counter; on the attempt where the counter reaches
`ENGINE_STARTUP_LIMIT` the engine is permanently disabled
(`engine_out = true`, `engine_on = false`) and the structured
"ENGINE FAILURE: START_UP" report is emitted, but the code still falls
through to the thrust lines, so the tick's thrust fuel burn still occurs;
the (limit−1)-th attempt leaves `engine_out` false and turns the engine on;
once `engine_out` is true it stays true through every subsequent
`update_physics` and `collision_check`. -/
theorem C3_engine_startup_limit (P : Params) (keys : Keys) (dt : ℝ)
    (terrain : Terrain) (s s1 : Lander) (hc : s.crashed = false)
    (hcs : s.contact_screen = none) (hl : s.landed = false)
    (hup : keys.up = true) (hout : s.engine_out = false)
    (hon : s.engine_on = false)
    (hs1 : s1 = rotationStep keys (dt * TIME_SCALE) (lifeSupport (dt * TIME_SCALE) s))
    (hfuel : 0 < s1.fuel) :
    (updatePhysics P keys dt terrain s).engine_startup_count
        = s.engine_startup_count + 1 ∧
    (ENGINE_STARTUP_LIMIT ≤ s.engine_startup_count + 1 →
      (updatePhysics P keys dt terrain s).engine_out = true ∧
      (updatePhysics P keys dt terrain s).engine_on = false ∧
      (updatePhysics P keys dt terrain s).report
          = some (Report.engineFailure "START_UP") ∧
      (updatePhysics P keys dt terrain s).fuel
          = max (s1.fuel - fuelBurn (dt * TIME_SCALE) (throttleSel keys s1.throttle)) 0) ∧
    (s.engine_startup_count + 1 < ENGINE_STARTUP_LIMIT →
      (updatePhysics P keys dt terrain s).engine_out = false ∧
      (updatePhysics P keys dt terrain s).engine_on = true ∧
      (updatePhysics P keys dt terrain s).fuel
          = max (s1.fuel - fuelBurn (dt * TIME_SCALE) (throttleSel keys s1.throttle)) 0) ∧
    (∀ (keys2 : Keys) (dt2 : ℝ) (terrain2 : Terrain) (s2 : Lander),
      s2.engine_out = true → (updatePhysics P keys2 dt2 terrain2 s2).engine_out = true) ∧
    (∀ (keys2 : Keys) (terrain2 : Terrain) (c : Option (ℤ × ℤ)) (rh sh : Bool)
        (s2 : Lander), s2.engine_out = true →
      (collisionCheck P keys2 terrain2 c rh sh s2).engine_out = true) :=
  engineStartup_eval P keys dt terrain s s1 hc hcs hl hup hout hon hs1 hfuel

/-- When the APU is off and the battery stays positive, the life-support
section only drains oxygen and battery. -/
lemma lifeSupport_apu_off {d : ℝ} {s : Lander} (hapu : s.apu_on = false)
    (hbat : 0 < s.battery - BATTERY_DRAIN_RATE * d) :
    lifeSupport d s =
      { s with oxygen := max (s.oxygen - OXYGEN_DRAIN_RATE * d) 0,
               battery := max (s.battery - BATTERY_DRAIN_RATE * d) 0,
               apu_on := false } := by
  have hb : ¬(max (s.battery - BATTERY_DRAIN_RATE * d) 0 ≤ 0) := by
    push_neg
    exact lt_max_iff.mpr (Or.inl hbat)
  simp [lifeSupport, hapu, hb]

/-- The C3 scenario: the reset state with four failed startup attempts
already recorded (the next thrust command is the fifth). -/
def sC3 : Lander := { s0 with engine_startup_count := 4 }

lemma lifeSupport_sC3 :
    lifeSupport (1 * TIME_SCALE) sC3 =
      { sC3 with
        oxygen := max (sC3.oxygen - OXYGEN_DRAIN_RATE * (1 * TIME_SCALE)) 0,
        battery := max (sC3.battery - BATTERY_DRAIN_RATE * (1 * TIME_SCALE)) 0,
        apu_on := false } :=
  lifeSupport_apu_off rfl
    (by norm_num [sC3, s0, resetState, BATTERY_DRAIN_RATE, TIME_SCALE, MAX_BATTERY])

lemma rot_lifeSupport_sC3_fuel :
    (rotationStep Keys.upOnly (1 * TIME_SCALE)
      (lifeSupport (1 * TIME_SCALE) sC3)).fuel = 2000 := by
  rw [rotationStep_fuel, lifeSupport_sC3]
  norm_num [sC3, s0, resetState, FUEL_START]

lemma rot_lifeSupport_sC3_throttle :
    (rotationStep Keys.upOnly (1 * TIME_SCALE)
      (lifeSupport (1 * TIME_SCALE) sC3)).throttle = 1 := by
  rw [rotationStep_throttle, lifeSupport_sC3]
  norm_num [sC3, s0, resetState]

/-- C3 counterexample: on the limit-reaching (fifth) startup attempt the
engine is disabled and the failure report emitted, but — contrary to
"instead of firing (no thrust acceleration or fuel burn that tick)" — the
tick still burns fuel: the fuel strictly decreases. -/
theorem C3_engine_startup_counterexample :
    (updatePhysics P0 Keys.upOnly 1 flat11 sC3).engine_out = true ∧
    (updatePhysics P0 Keys.upOnly 1 flat11 sC3).report
        = some (Report.engineFailure "START_UP") ∧
    (updatePhysics P0 Keys.upOnly 1 flat11 sC3).fuel < sC3.fuel := by
  have H := engineStartup_eval P0 Keys.upOnly 1 flat11 sC3 _ rfl rfl rfl rfl rfl rfl rfl
    (by rw [rot_lifeSupport_sC3_fuel]; norm_num)
  obtain ⟨-, hlim, -, -, -⟩ := H
  have h5 : ENGINE_STARTUP_LIMIT ≤ sC3.engine_startup_count + 1 := by
    norm_num [ENGINE_STARTUP_LIMIT, sC3]
  obtain ⟨hout, -, hrep, hfuel⟩ := hlim h5
  refine ⟨hout, hrep, ?_⟩
  rw [hfuel, rot_lifeSupport_sC3_fuel, rot_lifeSupport_sC3_throttle]
  have hthr : throttleSel Keys.upOnly (1 : ℝ) = 1 := by
    norm_num [throttleSel, Keys.upOnly]
  rw [hthr]
  have hfb : fuelBurn (1 * TIME_SCALE) 1 = 45000 / (311 * 1.62) := by
    norm_num [fuelBurn, MAX_THRUST, ISP, G0_MOON, TIME_SCALE]
  rw [hfb, show sC3.fuel = (2000 : ℝ) from rfl]
  norm_num [max_def]

/-- Witness for C3 at the concrete fifth-attempt state. -/
theorem C3_engine_startup_limit_witness :
    (updatePhysics P0 Keys.upOnly 1 flat11 sC3).engine_startup_count
        = sC3.engine_startup_count + 1 ∧
    (ENGINE_STARTUP_LIMIT ≤ sC3.engine_startup_count + 1 →
      (updatePhysics P0 Keys.upOnly 1 flat11 sC3).engine_out = true ∧
      (updatePhysics P0 Keys.upOnly 1 flat11 sC3).engine_on = false ∧
      (updatePhysics P0 Keys.upOnly 1 flat11 sC3).report
          = some (Report.engineFailure "START_UP") ∧
      (updatePhysics P0 Keys.upOnly 1 flat11 sC3).fuel
          = max ((rotationStep Keys.upOnly (1 * TIME_SCALE)
                (lifeSupport (1 * TIME_SCALE) sC3)).fuel -
              fuelBurn (1 * TIME_SCALE)
                (throttleSel Keys.upOnly
                  (rotationStep Keys.upOnly (1 * TIME_SCALE)
                    (lifeSupport (1 * TIME_SCALE) sC3)).throttle)) 0) ∧
    (sC3.engine_startup_count + 1 < ENGINE_STARTUP_LIMIT →
      (updatePhysics P0 Keys.upOnly 1 flat11 sC3).engine_out = false ∧
      (updatePhysics P0 Keys.upOnly 1 flat11 sC3).engine_on = true ∧
      (updatePhysics P0 Keys.upOnly 1 flat11 sC3).fuel
          = max ((rotationStep Keys.upOnly (1 * TIME_SCALE)
                (lifeSupport (1 * TIME_SCALE) sC3)).fuel -
              fuelBurn (1 * TIME_SCALE)
                (throttleSel Keys.upOnly
                  (rotationStep Keys.upOnly (1 * TIME_SCALE)
                    (lifeSupport (1 * TIME_SCALE) sC3)).throttle)) 0) ∧
    (∀ (keys2 : Keys) (dt2 : ℝ) (terrain2 : Terrain) (s2 : Lander),
      s2.engine_out = true →
        (updatePhysics P0 keys2 dt2 terrain2 s2).engine_out = true) ∧
    (∀ (keys2 : Keys) (terrain2 : Terrain) (c : Option (ℤ × ℤ)) (rh sh : Bool)
        (s2 : Lander), s2.engine_out = true →
      (collisionCheck P0 keys2 terrain2 c rh sh s2).engine_out = true) :=
  C3_engine_startup_limit P0 Keys.upOnly 1 flat11 sC3 _ rfl rfl rfl rfl rfl rfl rfl
    (by rw [rot_lifeSupport_sC3_fuel]; norm_num)

/-! ## Lift-off during settlement (claim C4) -/

/-- Evaluation of the lift-off branch of the contact regime, shared by the
claims about lift-off during settlement. -/
lemma liftOff_eval (P : Params) (keys : Keys) (dt : ℝ) (terrain : Terrain)
    (s s1 : Lander) (c : ℤ × ℤ) (hc : s.crashed = false)
    (hcs : s.contact_screen = some c) (_hl : s.landed = false)
    (hup : keys.up = true) (hout : s.engine_out = false)
    (hs1 : s1 = rotationStep keys (dt * TIME_SCALE) (lifeSupport (dt * TIME_SCALE) s))
    (hfuel : 0 < s1.fuel) :
    (updatePhysics P keys dt terrain s).landed = false ∧
    (updatePhysics P keys dt terrain s).engine_on = true ∧
    (updatePhysics P keys dt terrain s).contact_screen = some c ∧
    (updatePhysics P keys dt terrain s).vy
        = s.vy + -|(updatePhysics P keys dt terrain s).ay * (dt * TIME_SCALE)| ∧
    (updatePhysics P keys dt terrain s).vy ≤ s.vy ∧
    (∀ (keys2 : Keys) (terrain2 : Terrain) (sh : Bool) (s2 : Lander),
      keys2.up = true → s2.contact_screen ≠ none →
        (collisionCheck P keys2 terrain2 none false sh s2).contact_screen = none) := by
  subst hs1
  rw [updatePhysics_eq_contact hc hcs]
  set t := rotationStep keys (dt * TIME_SCALE) (lifeSupport (dt * TIME_SCALE) s) with ht
  have hts : t.contact_screen = some c := by rw [ht]; simp [hcs]
  have htout : t.engine_out = false := by rw [ht]; simp [hout]
  have htvy : t.vy = s.vy := by rw [ht]; simp
  simp only [contactStep]
  rw [if_pos (And.intro hup (And.intro hfuel (by simp [htout])))]
  refine ⟨rfl, rfl, by simp [hts], by simp [htvy], ?_, ?_⟩
  · dsimp only
    rw [htvy]
    exact (add_le_iff_nonpos_right _).mpr (neg_nonpos.mpr (abs_nonneg _))
  · intro keys2 T2 sh s2 hup2 hne
    simp only [collisionCheck]
    rw [if_neg (by simp)]
    rw [if_pos (And.intro hne hup2)]

/-- C4 amended: with a contact point set, settlement incomplete, thrust
commanded, fuel available and the engine not out, that tick's
`update_physics` clears `landed`, turns the engine on, applies an
upward-or-zero thrust change to the vertical velocity, but leaves the
contact point set; the contact point is cleared by `collision_check` in
the first tick whose overlap test no longer reports contact while the
thrust command is held. -/
theorem C4_liftoff_during_settlement (P : Params) (keys : Keys) (dt : ℝ)
    (terrain : Terrain) (s s1 : Lander) (c : ℤ × ℤ) (hc : s.crashed = false)
    (hcs : s.contact_screen = some c) (hl : s.landed = false)
    (hup : keys.up = true) (hout : s.engine_out = false)
    (hs1 : s1 = rotationStep keys (dt * TIME_SCALE) (lifeSupport (dt * TIME_SCALE) s))
    (hfuel : 0 < s1.fuel) :
    (updatePhysics P keys dt terrain s).landed = false ∧
    (updatePhysics P keys dt terrain s).engine_on = true ∧
    (updatePhysics P keys dt terrain s).contact_screen = some c ∧
    (updatePhysics P keys dt terrain s).vy
        = s.vy + -|(updatePhysics P keys dt terrain s).ay * (dt * TIME_SCALE)| ∧
    (updatePhysics P keys dt terrain s).vy ≤ s.vy ∧
    (∀ (keys2 : Keys) (terrain2 : Terrain) (sh : Bool) (s2 : Lander),
      keys2.up = true → s2.contact_screen ≠ none →
        (collisionCheck P keys2 terrain2 none false sh s2).contact_screen = none) :=
  liftOff_eval P keys dt terrain s s1 c hc hcs hl hup hout hs1 hfuel

/-- The C4 scenario: contact point recorded, not yet landed, full tank. -/
def sC4 : Lander := { s0 with x := 10, contact_screen := some (500, 600) }

/-- C4 counterexample: when the overlap test still reports contact on the
lift-off tick (the usual case — the craft moves only a fraction of a pixel
in one tick), the contact point is NOT cleared within that same tick, even
though all the lift-off conditions hold. -/
theorem C4_liftoff_counterexample :
    sC4.contact_screen = some (500, 600) ∧ sC4.landed = false ∧
    sC4.crashed = false ∧ 0 < sC4.fuel ∧ sC4.engine_out = false ∧
    Keys.upOnly.up = true ∧
    (tick P0 ⟨Keys.upOnly, 1, flat11, some (500, 600), false, false⟩ sC4).contact_screen
      = some (500, 600) := by
  have h1 : (updatePhysics P0 Keys.upOnly 1 flat11 sC4).contact_screen
      = some (500, 600) := by
    rw [updatePhysics_contact_screen]
    rfl
  refine ⟨rfl, rfl, rfl, by norm_num [sC4, s0, resetState, FUEL_START], rfl, rfl, ?_⟩
  show (collisionCheck P0 Keys.upOnly flat11 (some (500, 600)) false false
    (updatePhysics P0 Keys.upOnly 1 flat11 sC4)).contact_screen = some (500, 600)
  simp only [collisionCheck]
  rw [if_neg (by simp)]
  rw [if_neg (by simp [h1, sC4])]
  simp [h1, sC4]

/-- Witness for C4 at the concrete settlement state. -/
theorem C4_liftoff_during_settlement_witness :
    (updatePhysics P0 Keys.upOnly 1 flat11 sC4).landed = false ∧
    (updatePhysics P0 Keys.upOnly 1 flat11 sC4).engine_on = true ∧
    (updatePhysics P0 Keys.upOnly 1 flat11 sC4).contact_screen = some (500, 600) ∧
    (updatePhysics P0 Keys.upOnly 1 flat11 sC4).vy
        = sC4.vy + -|(updatePhysics P0 Keys.upOnly 1 flat11 sC4).ay * (1 * TIME_SCALE)| ∧
    (updatePhysics P0 Keys.upOnly 1 flat11 sC4).vy ≤ sC4.vy ∧
    (∀ (keys2 : Keys) (terrain2 : Terrain) (sh : Bool) (s2 : Lander),
      keys2.up = true → s2.contact_screen ≠ none →
        (collisionCheck P0 keys2 terrain2 none false sh s2).contact_screen = none) :=
  C4_liftoff_during_settlement P0 Keys.upOnly 1 flat11 sC4 _ (500, 600)
    rfl rfl rfl rfl rfl rfl
    (by
      rw [rotationStep_fuel, lifeSupport_apu_off rfl
        (by norm_num [sC4, s0, resetState, BATTERY_DRAIN_RATE, TIME_SCALE, MAX_BATTERY])]
      norm_num [sC4, s0, resetState, FUEL_START])

/-! ## The pivot-settle lever arm (claim C5) -/

/-- The guard under which one `update_physics` invocation executes the
pivot-settle branch: not crashed, contact point set, lift-off thrust not
taken, and the remaining angle difference at least one rotation step. -/
def pivotBranch (P : Params) (keys : Keys) (dt : ℝ) (terrain : Terrain)
    (s : Lander) : Prop :=
  s.crashed = false ∧
  s.contact_screen ≠ none ∧
  ¬(keys.up = true ∧
      0 < (rotationStep keys (dt * TIME_SCALE) (lifeSupport (dt * TIME_SCALE) s)).fuel ∧
      s.engine_out = false) ∧
  ROTATION_SPEED * (dt * TIME_SCALE) ≤
    |angleDiff (computeSurfaceSlope P terrain s.x)
      (rotationStep keys (dt * TIME_SCALE) (lifeSupport (dt * TIME_SCALE) s)).angle|

lemma angleDiff_0_90 : angleDiff 0 90 = -90 := by
  unfold angleDiff
  rw [show (0 : ℝ) - 90 + 180 = 90 by norm_num]
  rw [pymod_eq_self (by norm_num) (by norm_num)]
  norm_num

/-- The C5 family of states: contact point at (500, 600), orientation 90°
over the flat strip, with a chosen gravity-centre record. -/
def sC5gc (gc : ℤ × ℤ) : Lander :=
  { s0 with x := 10, angle := 90, contact_screen := some (500, 600),
            gravity_center := gc }

lemma rot_lifeSupport_sC5gc_angle (gc : ℤ × ℤ) :
    (rotationStep Keys.none' ((1 / 2 : ℝ) * TIME_SCALE)
      (lifeSupport ((1 / 2 : ℝ) * TIME_SCALE) (sC5gc gc))).angle = 90 := by
  have hav : (rotationStep Keys.none' ((1 / 2 : ℝ) * TIME_SCALE)
      (lifeSupport ((1 / 2 : ℝ) * TIME_SCALE) (sC5gc gc))).angular_velocity = 0 := by
    simp only [rotationStep]
    split_ifs <;> simp_all [Keys.none', sC5gc, s0, resetState]
  rw [rotationStep_angle, hav, lifeSupport_angle]
  rw [show (sC5gc gc).angle = (90 : ℝ) from rfl]
  rw [zero_mul, add_zero]
  exact pymod_eq_self (by norm_num) (by norm_num)

/-- The pivot-settle branch guard holds at every C5 state: no thrust
command, flat slope 0° against orientation 90°, so the 45° rotation step of
a half-second tick is exceeded. -/
lemma pivotBranch_sC5gc (gc : ℤ × ℤ) :
    pivotBranch P0 Keys.none' (1 / 2) flat11 (sC5gc gc) := by
  refine ⟨rfl, by simp [sC5gc], ?_, ?_⟩
  · intro h
    simpa [Keys.none'] using h.1
  · rw [rot_lifeSupport_sC5gc_angle]
    rw [show (sC5gc gc).x = (10 : ℝ) from rfl, slope_flat11_x10, angleDiff_0_90]
    norm_num [ROTATION_SPEED, TIME_SCALE]

/-- C5 counterexample: a state in which the pivot-settle branch executes
(contact set, not crashed, no thrust command, angle difference at least one
rotation step) but the recorded gravity centre coincides with the contact
point, so the lever arm length `R` is zero and the tangential-unit-vector
divisions `-dy0/R`, `dx0/R` are division by zero (a `ZeroDivisionError` in
the Python source). -/
theorem C5_pivot_division_counterexample :
    pivotBranch P0 Keys.none' (1 / 2) flat11 (sC5gc (500, 600)) ∧
    leverR P0 (sC5gc (500, 600)) = 0 := by
  refine ⟨pivotBranch_sC5gc (500, 600), ?_⟩
  have harm : leverArm P0 (sC5gc (500, 600)) = (0, 0) := by
    simp [leverArm, sC5gc]
  unfold leverR
  rw [harm]
  exact hypot_zero

/-- C5 amended: whenever the pivot-settle branch executes AND the recorded
gravity centre differs from the contact point (with a nondegenerate sprite
height), the lever-arm length `R` is nonzero, so the divisions producing
the tangential unit vector are well-defined. -/
theorem C5_pivot_divisions_welldefined (P : Params) (keys : Keys) (dt : ℝ)
    (terrain : Terrain) (s : Lander) (c : ℤ × ℤ)
    (_hb : pivotBranch P keys dt terrain s) (hcs : s.contact_screen = some c)
    (hppm : P.imgH ≠ 0) (hne : s.gravity_center ≠ c) :
    leverR P s ≠ 0 := by
  obtain ⟨c1, c2⟩ := c
  have harm : leverArm P s =
      (((s.gravity_center.1 : ℝ) - (c1 : ℝ)) / pxPerM P,
       ((s.gravity_center.2 : ℝ) - (c2 : ℝ)) / pxPerM P) := by
    simp [leverArm, hcs]
  have hppm' : pxPerM P ≠ 0 := by
    unfold pxPerM LANDER_HEIGHT_M
    exact div_ne_zero hppm (by norm_num)
  have hor : ((s.gravity_center.1 : ℝ) - (c1 : ℝ) ≠ 0) ∨
      ((s.gravity_center.2 : ℝ) - (c2 : ℝ) ≠ 0) := by
    by_contra hcon
    push_neg at hcon
    obtain ⟨h1, h2⟩ := hcon
    apply hne
    have e1 : s.gravity_center.1 = c1 := by exact_mod_cast sub_eq_zero.mp h1
    have e2 : s.gravity_center.2 = c2 := by exact_mod_cast sub_eq_zero.mp h2
    exact Prod.ext_iff.mpr ⟨e1, e2⟩
  unfold leverR
  rw [harm]
  refine ne_of_gt (hypot_pos_of_ne ?_)
  rcases hor with h | h
  · exact Or.inl (div_ne_zero h hppm')
  · exact Or.inr (div_ne_zero h hppm')

/-- Witness for C5 at a concrete pivot state whose gravity centre sits 50
pixels above the contact point. -/
theorem C5_pivot_divisions_welldefined_witness :
    pivotBranch P0 Keys.none' (1 / 2) flat11 (sC5gc (500, 550)) ∧
    leverR P0 (sC5gc (500, 550)) ≠ 0 :=
  ⟨pivotBranch_sC5gc (500, 550),
    C5_pivot_divisions_welldefined P0 Keys.none' (1 / 2) flat11
      (sC5gc (500, 550)) (500, 600) (pivotBranch_sC5gc (500, 550)) rfl
      (by norm_num [P0]) (by decide)⟩

end

/-! ## Terrain sensor lemmas (claims C7 and C8) -/

lemma get?_eq_some_getD (l : List ℚ) (k : ℕ) (h : k < l.length) :
    l.get? k = some (l.getD k 0) := by
  rw [List.getD_eq_getElem?_getD, List.get?_eq_getElem?, List.getElem?_eq_getElem h]
  rfl

/-- When both clamped bracketing indices agree on `j`, the height query
returns the `j`-th sample. -/
lemma terrainHeightAt_clamped (topo : List ℚ) (x : ℚ) (j : ℕ) (hj : j < topo.length)
    (hL : max 0 (min ⌊x / PIXEL_SIZE_Q⌋ ((topo.length : ℤ) - 1)) = (j : ℤ))
    (hR : max 0 (min ⌈x / PIXEL_SIZE_Q⌉ ((topo.length : ℤ) - 1)) = (j : ℤ)) :
    terrainHeightAt topo x = some (topo.getD j 0) := by
  simp only [terrainHeightAt]
  rw [hL, hR, Int.toNat_natCast, get?_eq_some_getD topo j hj]
  simp

lemma terrainHeightAt_at_sample (topo : List ℚ) (k : ℕ) (hk : k < topo.length) :
    terrainHeightAt topo (PIXEL_SIZE_Q * k) = some (topo.getD k 0) := by
  have hidx : (PIXEL_SIZE_Q * (k : ℚ)) / PIXEL_SIZE_Q = (k : ℚ) := by
    norm_num [PIXEL_SIZE_Q]
  have h1 : ⌊(PIXEL_SIZE_Q * (k : ℚ)) / PIXEL_SIZE_Q⌋ = (k : ℤ) := by
    rw [hidx]
    exact Int.floor_natCast k
  have h2 : ⌈(PIXEL_SIZE_Q * (k : ℚ)) / PIXEL_SIZE_Q⌉ = (k : ℤ) := by
    rw [hidx]
    exact Int.ceil_natCast k
  refine terrainHeightAt_clamped topo _ k hk ?_ ?_
  · rw [h1]; omega
  · rw [h2]; omega

lemma terrainHeightAt_midpoint (topo : List ℚ) (k : ℕ) (hk : k + 1 < topo.length) :
    terrainHeightAt topo (PIXEL_SIZE_Q * k + PIXEL_SIZE_Q / 2)
      = some ((topo.getD k 0 + topo.getD (k + 1) 0) / 2) := by
  have hidx : (PIXEL_SIZE_Q * (k : ℚ) + PIXEL_SIZE_Q / 2) / PIXEL_SIZE_Q
      = (k : ℚ) + 1 / 2 := by
    norm_num [PIXEL_SIZE_Q]
    ring
  have hfl : ⌊(PIXEL_SIZE_Q * (k : ℚ) + PIXEL_SIZE_Q / 2) / PIXEL_SIZE_Q⌋ = (k : ℤ) := by
    rw [hidx, Int.floor_eq_iff]
    constructor <;> push_cast <;> norm_num
  have hcl : ⌈(PIXEL_SIZE_Q * (k : ℚ) + PIXEL_SIZE_Q / 2) / PIXEL_SIZE_Q⌉
      = (k : ℤ) + 1 := by
    rw [hidx, Int.ceil_eq_iff]
    constructor <;> push_cast <;> norm_num
  simp only [terrainHeightAt]
  rw [hfl, hcl]
  rw [show max 0 (min (k : ℤ) ((topo.length : ℤ) - 1)) = (k : ℤ) from by omega]
  rw [show max 0 (min ((k : ℤ) + 1) ((topo.length : ℤ) - 1)) = (k : ℤ) + 1 from by omega]
  rw [Int.toNat_natCast, show ((k : ℤ) + 1).toNat = k + 1 from by omega]
  rw [get?_eq_some_getD topo k (by omega), get?_eq_some_getD topo (k + 1) hk]
  rw [show (Option.some (topo.getD k 0)) = pure (topo.getD k 0) from rfl]
  simp only [Option.bind_eq_bind, Option.some_bind, pure_bind]
  rw [if_neg (by omega)]
  rw [hidx]
  congr 1
  push_cast
  ring

lemma terrainHeightAt_below (topo : List ℚ) (x : ℚ) (h : topo ≠ []) (hx : x ≤ 0) :
    terrainHeightAt topo x = some (topo.getD 0 0) := by
  have hlen : 1 ≤ topo.length := List.length_pos.mpr h
  have hq : x / PIXEL_SIZE_Q ≤ 0 :=
    div_nonpos_of_nonpos_of_nonneg hx (by norm_num [PIXEL_SIZE_Q])
  have hfl : ⌊x / PIXEL_SIZE_Q⌋ ≤ 0 := Int.floor_nonpos hq
  have hcl : ⌈x / PIXEL_SIZE_Q⌉ ≤ 0 := by
    rw [show (0 : ℤ) = ((0 : ℕ) : ℤ) from rfl]
    exact Int.ceil_le.mpr (by exact_mod_cast hq)
  refine terrainHeightAt_clamped topo x 0 (by omega) ?_ ?_ <;> omega

lemma terrainHeightAt_above (topo : List ℚ) (x : ℚ) (h : topo ≠ [])
    (hx : PIXEL_SIZE_Q * ((topo.length : ℚ) - 1) ≤ x) :
    terrainHeightAt topo x = some (topo.getD (topo.length - 1) 0) := by
  have hlen : 1 ≤ topo.length := List.length_pos.mpr h
  have hq : ((topo.length : ℚ) - 1) ≤ x / PIXEL_SIZE_Q := by
    rw [le_div_iff₀ (by norm_num [PIXEL_SIZE_Q] : (0 : ℚ) < PIXEL_SIZE_Q)]
    linarith
  have hfl : ((topo.length : ℤ) - 1) ≤ ⌊x / PIXEL_SIZE_Q⌋ := by
    apply Int.le_floor.mpr
    push_cast
    exact hq
  have hcl : ((topo.length : ℤ) - 1) ≤ ⌈x / PIXEL_SIZE_Q⌉ :=
    le_trans hfl (Int.floor_le_ceil _)
  refine terrainHeightAt_clamped topo x (topo.length - 1) (by omega) ?_ ?_ <;> omega

/-- The height query always answers on nonempty terrain: both clamped
indices are in bounds, so the fallible lookups cannot raise. -/
lemma terrainHeightAt_isSome (topo : List ℚ) (x : ℚ) (h : topo ≠ []) :
    (terrainHeightAt topo x).isSome = true := by
  have hlen : 1 ≤ topo.length := List.length_pos.mpr h
  simp only [terrainHeightAt]
  rw [get?_eq_some_getD topo _ (by omega), get?_eq_some_getD topo _ (by omega)]
  simp only [Option.bind_eq_bind, Option.some_bind]
  split_ifs <;> rfl

/-- C7: the terrain height query is clamped linear interpolation — it
returns the exact stored sample at every sample index, the arithmetic mean
of the two adjacent samples at every midpoint, and the first/last sample's
value for every query at or beyond the respective edge (no
extrapolation). -/
theorem C7_height_interpolation (topo : List ℚ) :
    (∀ k : ℕ, k < topo.length →
      terrainHeightAt topo (PIXEL_SIZE_Q * k) = some (topo.getD k 0)) ∧
    (∀ k : ℕ, k + 1 < topo.length →
      terrainHeightAt topo (PIXEL_SIZE_Q * k + PIXEL_SIZE_Q / 2)
        = some ((topo.getD k 0 + topo.getD (k + 1) 0) / 2)) ∧
    (∀ x : ℚ, topo ≠ [] → x ≤ 0 →
      terrainHeightAt topo x = some (topo.getD 0 0)) ∧
    (∀ x : ℚ, topo ≠ [] → PIXEL_SIZE_Q * ((topo.length : ℚ) - 1) ≤ x →
      terrainHeightAt topo x = some (topo.getD (topo.length - 1) 0)) :=
  ⟨fun k hk => terrainHeightAt_at_sample topo k hk,
   fun k hk => terrainHeightAt_midpoint topo k hk,
   fun x h hx => terrainHeightAt_below topo x h hx,
   fun x h hx => terrainHeightAt_above topo x h hx⟩

/-- Witness for C7 on the concrete terrain `[1, 5, 9]`. -/
theorem C7_height_interpolation_witness :
    terrainHeightAt [(1 : ℚ), 5, 9] (PIXEL_SIZE_Q * (1 : ℕ))
        = some ([(1 : ℚ), 5, 9].getD 1 0) ∧
    terrainHeightAt [(1 : ℚ), 5, 9] (PIXEL_SIZE_Q * (1 : ℕ) + PIXEL_SIZE_Q / 2)
        = some (([(1 : ℚ), 5, 9].getD 1 0 + [(1 : ℚ), 5, 9].getD 2 0) / 2) ∧
    terrainHeightAt [(1 : ℚ), 5, 9] (-3) = some ([(1 : ℚ), 5, 9].getD 0 0) ∧
    terrainHeightAt [(1 : ℚ), 5, 9] 99
        = some ([(1 : ℚ), 5, 9].getD ([(1 : ℚ), 5, 9].length - 1) 0) :=
  ⟨(C7_height_interpolation [(1 : ℚ), 5, 9]).1 1 (by norm_num),
   (C7_height_interpolation [(1 : ℚ), 5, 9]).2.1 1 (by norm_num),
   (C7_height_interpolation [(1 : ℚ), 5, 9]).2.2.1 (-3) (by simp) (by norm_num),
   (C7_height_interpolation [(1 : ℚ), 5, 9]).2.2.2 99 (by simp)
     (by norm_num [PIXEL_SIZE_Q])⟩

/-- `altitude_at` in evaluated form: it maps the (clamped, total on
nonempty terrain) interpolated surface height through the altitude
formula — it never raises and never substitutes a sentinel. -/
lemma altitudeAt_eval (topo : List ℚ) (x y imgW imgH offset : ℚ)
    (ro : Option ℚ) :
    altitudeAt topo x y imgW imgH offset ro =
      Option.map (fun v =>
        ((v - (y + imgH - 29)) / (imgH / LANDER_HEIGHT_Q),
         (x + imgW / 2 - offset + ro.getD (x + imgW / 2), v)))
        (terrainHeightAt topo ((x + imgW / 2) + ro.getD (x + imgW / 2))) := by
  cases hv : terrainHeightAt topo ((x + imgW / 2) + ro.getD (x + imgW / 2)) <;>
    simp [altitudeAt, baseCoords, hv]

/-- C8 amended: `altitude_at` clamps out-of-range queries to the nearest
valid terrain sample and never raises — its result is always `some`, it is
the altitude formula applied to the clamped interpolated height, and at or
beyond either edge that height is the first/last sample.  `compute_altitude`
(src/systems/physics.py) never raises either, but it does NOT clamp: for
every position whose sample index is outside the height array it returns
the sentinel `0.0` instead of evaluating the nearest valid sample. -/
theorem C8_out_of_range_queries :
    (∀ (topo : List ℚ) (x y imgW imgH offset : ℚ) (ro : Option ℚ),
      topo ≠ [] → (altitudeAt topo x y imgW imgH offset ro).isSome = true) ∧
    (∀ (topo : List ℚ) (x y imgW imgH offset : ℚ) (ro : Option ℚ),
      altitudeAt topo x y imgW imgH offset ro =
        Option.map (fun v =>
          ((v - (y + imgH - 29)) / (imgH / LANDER_HEIGHT_Q),
           (x + imgW / 2 - offset + ro.getD (x + imgW / 2), v)))
          (terrainHeightAt topo ((x + imgW / 2) + ro.getD (x + imgW / 2)))) ∧
    (∀ (topo : List ℚ) (x : ℚ), topo ≠ [] → x ≤ 0 →
      terrainHeightAt topo x = some (topo.getD 0 0)) ∧
    (∀ (topo : List ℚ) (x : ℚ), topo ≠ [] →
      PIXEL_SIZE_Q * ((topo.length : ℚ) - 1) ≤ x →
      terrainHeightAt topo x = some (topo.getD (topo.length - 1) 0)) ∧
    (∀ (topo : List ℚ) (x imgW rotBottom px_per_m : ℚ),
      ¬(0 ≤ ⌊(x + imgW / 2) / PIXEL_SIZE_Q⌋ ∧
          ⌊(x + imgW / 2) / PIXEL_SIZE_Q⌋ < (topo.length : ℤ)) →
      computeAltitude topo x imgW rotBottom px_per_m = 0) := by
  refine ⟨?_, fun topo x y imgW imgH off ro => altitudeAt_eval topo x y imgW imgH off ro,
    fun topo x h hx => terrainHeightAt_below topo x h hx,
    fun topo x h hx => terrainHeightAt_above topo x h hx,
    ?_⟩
  · intro topo x y imgW imgH off ro h
    rw [altitudeAt_eval]
    have := terrainHeightAt_isSome topo ((x + imgW / 2) + ro.getD (x + imgW / 2)) h
    cases hv : terrainHeightAt topo ((x + imgW / 2) + ro.getD (x + imgW / 2))
    · rw [hv] at this
      simp at this
    · rfl
  · intro topo x imgW rotBottom ppm hout
    simp only [computeAltitude]
    rw [if_neg hout]

/-- C8 counterexample: at a position left of the terrain extent
`compute_altitude` returns the sentinel `0.0`, while evaluating against the
nearest valid sample (the spec's contract, `computeAltitudeSpec`) gives 80:
`compute_altitude` does not clamp. -/
theorem C8_sentinel_counterexample :
    computeAltitude [(100 : ℚ)] (-100) 64 20 1 = 0 ∧
    computeAltitudeSpec [(100 : ℚ)] (-100) 64 20 1 = 80 ∧
    computeAltitude [(100 : ℚ)] (-100) 64 20 1
      ≠ computeAltitudeSpec [(100 : ℚ)] (-100) 64 20 1 := by
  have hfl : ⌊((-100 : ℚ) + 64 / 2) / PIXEL_SIZE_Q⌋ = -9 := by
    norm_num [PIXEL_SIZE_Q, Int.floor_eq_iff]
  have h1 : computeAltitude [(100 : ℚ)] (-100) 64 20 1 = 0 := by
    simp only [computeAltitude, hfl]
    norm_num
  have h2 : computeAltitudeSpec [(100 : ℚ)] (-100) 64 20 1 = 80 := by
    simp only [computeAltitudeSpec, hfl]
    norm_num [max_def, min_def]
  refine ⟨h1, h2, ?_⟩
  rw [h1, h2]
  norm_num

/-- Witness for C8 at concrete queries on a one-sample terrain. -/
theorem C8_out_of_range_queries_witness :
    (altitudeAt [(100 : ℚ)] (-100) 50 64 64 0 none).isSome = true ∧
    terrainHeightAt [(100 : ℚ)] (-9) = some ([(100 : ℚ)].getD 0 0) ∧
    computeAltitude [(100 : ℚ)] 990 64 20 1 = 0 :=
  ⟨C8_out_of_range_queries.1 [(100 : ℚ)] (-100) 50 64 64 0 none
      (List.cons_ne_nil _ _),
   C8_out_of_range_queries.2.2.1 [(100 : ℚ)] (-9) (List.cons_ne_nil _ _)
      (by norm_num),
   C8_out_of_range_queries.2.2.2.2 [(100 : ℚ)] 990 64 20 1
      (by
        rw [show ⌊((990 : ℚ) + 64 / 2) / PIXEL_SIZE_Q⌋ = 127 from by
          norm_num [PIXEL_SIZE_Q, Int.floor_eq_iff]]
        norm_num)⟩

end LunarX
